import Mathlib

/-!
Shallow embedding of `src/v1/services/github/github.provider.js`
(GithubProvider and BitbucketProvider) of SorenHQ/sam-scm-github-plugin.

JavaScript values are modelled as follows: machine objects returned by the
vendor HTTP API are a small JSON universe; a caught exception is `JsError`
(an `AppError` with its `message`/`statusCode`/`errorCode` fields, a raw
transport error carrying `response.status`, or a bare `Error`/`TypeError`
with neither); `undefined` is `Option.none`; the HTTP client is an oracle
`Request → Except JsError Json`; each action returns its outcome together
with the list of HTTP requests it issued.
-/

/-- JSON universe for vendor response payloads (`data`). -/
inductive Json where
  | null : Json
  | bool (b : Bool) : Json
  | num (n : Int) : Json
  | str (s : String) : Json
  | arr (elems : List Json) : Json
  | obj (members : List (String × Json)) : Json
  deriving Repr

/-- Property access `j.k`: `none` models `undefined` (missing member or non-object). -/
def Json.get (j : Json) (k : String) : Option Json :=
  match j with
  | .obj ms => (ms.find? (fun m => m.fst == k)).map (fun m => m.snd)
  | _ => none

/-- JavaScript truthiness of a JSON value (`[]` and `{}` are truthy). -/
def Json.truthy : Json → Bool
  | .null => false
  | .bool b => b
  | .num n => n != 0
  | .str s => s != ""
  | .arr _ => true
  | .obj _ => true

/-- Modelled from the spec: `NormalizedError` is `{message, statusCode, errorCode}`
(spec section 3); the `AppError` class of `src/v1/core/errors/AppError.js` is not
under `src/`, so an `AppError` is modelled as that record, with a constructor call
that omits the third argument yielding `errorCode = none`.  The other two
constructors model the non-`AppError` exceptions the adapters catch: a raw
transport error exposing `response.status`, and a bare `Error`/`TypeError`
carrying neither a `statusCode` nor a `response`. -/
inductive JsError where
  | app (message : String) (statusCode : Nat) (errorCode : Option String) : JsError
  | http (status : Nat) : JsError
  | bare : JsError
  deriving DecidableEq, Repr

/-- `error.statusCode === 404 || error.response?.status === 404` shape tests.
The string comparison `error.statusCode === "401"`/`"400"` that also appears in
the source never matches an `AppError` built in this file (all constructor calls
pass a number), so it has no counterpart here. -/
def JsError.is404 : JsError → Bool
  | .app _ s _ => s == 404
  | .http s => s == 404
  | .bare => false

def JsError.is400 : JsError → Bool
  | .app _ s _ => s == 400
  | .http s => s == 400
  | .bare => false

def JsError.is401 : JsError → Bool
  | .app _ s _ => s == 401
  | .http s => s == 401
  | .bare => false

/-- An error value that is a `NormalizedError` (an `AppError`), as opposed to a raw
transport or bare error. -/
def JsError.isNormalizedError : JsError → Bool
  | .app _ _ _ => true
  | _ => false

def JsError.statusCodeOf : JsError → Option Nat
  | .app _ s _ => some s
  | _ => none

def JsError.errorCodeOf : JsError → Option String
  | .app _ _ c => c
  | _ => none

/-- One `{key, value}` entry of a `params` sequence (`ParameterSpec`, restricted to
the two fields the providers read). -/
structure ParamEntry where
  key : String
  value : List String
  deriving DecidableEq, Repr

/-- `CallOptions`: `configsParams` is `options?.configs?.params` with both missing
levels collapsed to `none`; the three top-level fields are the ones
`BitbucketProvider.actionListRepos` reads directly off `options`. -/
structure CallOptions where
  configsParams : Option (List ParamEntry)
  sort : Option String
  page : Option Nat
  perPage : Option Nat
  deriving DecidableEq, Repr

/-- Query-string value: axios drops `undefined` params, kept here as `undef`. -/
inductive QVal where
  | str (s : String) : QVal
  | num (n : Nat) : QVal
  | undef : QVal
  deriving DecidableEq, Repr

/-- One HTTP request issued on the client. -/
structure Request where
  method : String
  url : String
  query : List (String × QVal)
  body : Option Json
  deriving Repr

def mkGet (url : String) : Request :=
  { method := "GET", url := url, query := [], body := none }

def mkGetQ (url : String) (query : List (String × QVal)) : Request :=
  { method := "GET", url := url, query := query, body := none }

def mkPost (url : String) (body : Json) : Request :=
  { method := "POST", url := url, query := [], body := some body }

/-- JavaScript `String.prototype.trim()`: strip leading and trailing
whitespace.  Written structurally over the character list so that it evaluates
inside the kernel (`String.trim` itself does not reduce definitionally). -/
def jsTrim (s : String) : String :=
  ⟨((s.data.dropWhile Char.isWhitespace).reverse.dropWhile Char.isWhitespace).reverse⟩

/-- `options.find((par) => par.key === k)`. -/
def findParam (params : List ParamEntry) (k : String) : Option ParamEntry :=
  params.find? (fun par => par.key == k)

/-- `options?.find((par) => par.key === k)?.value[0]` — `none` models `undefined`
(no matching entry, or matching entry with an empty `value` array). -/
def extractRaw (params : List ParamEntry) (k : String) : Option String :=
  (findParam params k).bind (fun par => par.value.head?)

/-- `options?.find((par) => par.key === k)?.value[0]?.trim() || ""`. -/
def extractTrim (params : List ParamEntry) (k : String) : String :=
  match extractRaw params k with
  | none => ""
  | some v => jsTrim v

/-- `options?.find((par) => par.key === k).value[0].trim() || ""` — the variant in
`GithubProvider.actionListCommitModifications` without optional chaining on
`.value[0]` and `.trim()`: `none` models the `TypeError` thrown when no entry
matches or the matching entry's `value` array is empty. -/
def extractTrimUnguarded (params : List ParamEntry) (k : String) : Option String :=
  match findParam params k with
  | none => none
  | some par =>
    match par.value.head? with
    | none => none
    | some v => some (jsTrim v)

/-- `options?.find((par) => par.key === k)?.value[0] || dflt`. -/
def extractOr (params : List ParamEntry) (k dflt : String) : String :=
  match extractRaw params k with
  | none => dflt
  | some v => if v = "" then dflt else v

/-- `configs?.params?.find((par) => par?.key === k)?.value[0] || ""` as used by
`GithubProvider.init` on the stored config group. -/
def initExtract (cfgParams : Option (List ParamEntry)) (k : String) : String :=
  match cfgParams with
  | none => ""
  | some ps => extractOr ps k ""

/-- JS truthiness of `options?.find(...)?.value[0] || false` (a string or `false`). -/
def jsTruthyOpt (v : Option String) : Bool :=
  match v with
  | none => false
  | some s => s != ""

/-- An action body result: outcome plus issued requests, fed to the `catch`. -/
def tryWrap (mapE : JsError → JsError) :
    Except JsError Json × List Request → Except JsError Json × List Request
  | (.ok d, reqs) => (.ok d, reqs)
  | (.error e, reqs) => (.error (mapE e), reqs)

/-- `const { data } = await this.client.get/post(req)` as one recorded call. -/
def httpStep (http : Request → Except JsError Json) (req : Request) :
    Except JsError Json × List Request :=
  (http req, [req])

/-- The shared `catch` shape of every `GithubProvider` action: map 404 to a
specific not-found `AppError`, re-throw anything whose status is 400 unchanged,
wrap the rest as an action-specific 500. -/
def githubCatch (nfMsg nfCode fbMsg fbCode : String) (e : JsError) : JsError :=
  if e.is404 then .app nfMsg 404 (some nfCode)
  else if e.is400 then e
  else .app fbMsg 500 (some fbCode)

/-- The `catch` shape of the `BitbucketProvider` actions that re-throw status-400
errors and wrap everything else as an action-specific 500. -/
def bitbucket400Catch (fbMsg fbCode : String) (e : JsError) : JsError :=
  if e.is400 then e
  else .app fbMsg 500 (some fbCode)

/-- The `catch` shape of `BitbucketProvider.actionGetRepo`, the surviving
`actionListRepos` and `actionListBranchCommits`: wrap every error as 500. -/
def bitbucketAllCatch (fbMsg fbCode : String) (_e : JsError) : JsError :=
  .app fbMsg 500 (some fbCode)

/-- GitHub provider runtime state (`this.client`, `this.owner`). A client value
records the bearer token it was constructed with. -/
structure GithubClient where
  token : String
  deriving DecidableEq, Repr

structure GithubState where
  client : Option GithubClient
  owner : String
  deriving DecidableEq, Repr

/-- `GithubProvider.createClient(token)`: guard on an empty token, install the
axios client on `this.client`, then probe `GET /user`; the `catch` re-throws the
error unchanged.  `userCall tok` is the outcome of the probe under a client
holding `tok`. -/
def GithubProvider.createClient (st : GithubState) (token : String)
    (userCall : String → Except JsError Json) : GithubState × Except JsError Json :=
  if token = "" then
    (st, .error (.app "GitHub authentication failed" 401 (some "AUTH_FAILED")))
  else
    let st' : GithubState := { st with client := some { token := token } }
    match userCall token with
    | .ok d => (st', .ok d)
    | .error e => (st', .error e)

/-- `GithubProvider.init()`: read `token`/`owner` from the stored config group
(`this.owner` is assigned before either check), throw 401 `AUTH_FAILED` when one
is missing, otherwise build the client; the `catch` re-throws errors whose status
is 401 and wraps everything else as a two-argument 500 `AppError`. -/
def GithubProvider.init (st : GithubState) (cfgParams : Option (List ParamEntry))
    (userCall : String → Except JsError Json) : GithubState × Except JsError Unit :=
  let token := initExtract cfgParams "token"
  let st1 : GithubState := { st with owner := initExtract cfgParams "owner" }
  if token = "" then
    (st1, .error (.app "GitHub token not found in configurations" 401 (some "AUTH_FAILED")))
  else if st1.owner = "" then
    (st1, .error (.app "GitHub owner (account username) not found in configurations" 401
      (some "AUTH_FAILED")))
  else
    match GithubProvider.createClient st1 token userCall with
    | (st2, .ok _) => (st2, .ok ())
    | (st2, .error e) =>
      if e.is401 then (st2, .error e)
      else (st2, .error (.app "Failed to initialize GitHub provider" 500 none))

/-- `GithubProvider.actionGetRepo(options)`. -/
def GithubProvider.actionGetRepo (owner : String) (opts : CallOptions)
    (http : Request → Except JsError Json) : Except JsError Json × List Request :=
  tryWrap (githubCatch "Repository not found" "REPOSITORY_NOT_FOUND"
      "Failed to fetch repository" "FETCH_REPO_FAILED")
    (let options := opts.configsParams.getD []
     let repoName := extractTrim options "repoName"
     if repoName = "" then
       (.error (.app "Repository name is required" 400 (some "MISSING_REQUIRED_PARAMS")), [])
     else
       httpStep http (mkGet ("/repos/" ++ owner ++ "/" ++ repoName)))

/-- `GithubProvider.actionListRepos(options)` — no required parameter; `page` is
the raw first value of the `page` entry or the number `1`. -/
def GithubProvider.actionListRepos (opts : CallOptions)
    (http : Request → Except JsError Json) : Except JsError Json × List Request :=
  tryWrap (githubCatch "Resources not found" "RESOURCE_NOT_FOUND"
      "Failed to fetch repositories" "FETCH_REPOS_FAILED")
    (let options := opts.configsParams.getD []
     let visibility := extractOr options "visibility" "all"
     let sortVal := extractOr options "sort" "updated"
     let page : QVal :=
       match extractRaw options "page" with
       | some v => if v = "" then .num 1 else .str v
       | none => .num 1
     httpStep http (mkGetQ "/user/repos"
       [("visibility", .str visibility), ("sort", .str sortVal),
        ("per_page", .num 50), ("page", page)]))

/-- `GithubProvider.actionListRepoContents(options)` — `repoName` required,
`path` and `ref` optional; `ref` is sent as a query param or dropped when empty. -/
def GithubProvider.actionListRepoContents (owner : String) (opts : CallOptions)
    (http : Request → Except JsError Json) : Except JsError Json × List Request :=
  tryWrap (githubCatch "Repository path or reference not found" "RESOURCE_NOT_FOUND"
      "Failed to fetch repository contents" "FETCH_CONTENTS_FAILED")
    (let options := opts.configsParams.getD []
     let repoName := extractTrim options "repoName"
     let path := extractTrim options "path"
     let ref := extractTrim options "ref"
     if repoName = "" then
       (.error (.app "Repository name is required" 400 (some "MISSING_REQUIRED_PARAMS")), [])
     else
       httpStep http (mkGetQ ("/repos/" ++ owner ++ "/" ++ repoName ++ "/contents/" ++ path)
         [("ref", if ref = "" then .undef else .str ref)]))

/-- `GithubProvider.actionGetRepoFileContent(options)` — `repoName` and `path`
required; otherwise builds the same request as `actionListRepoContents`. -/
def GithubProvider.actionGetRepoFileContent (owner : String) (opts : CallOptions)
    (http : Request → Except JsError Json) : Except JsError Json × List Request :=
  tryWrap (githubCatch "File not found or inaccessible" "RESOURCE_NOT_FOUND"
      "Failed to fetch file content" "FETCH_CONTENT_FAILED")
    (let options := opts.configsParams.getD []
     let repoName := extractTrim options "repoName"
     let path := extractTrim options "path"
     let ref := extractTrim options "ref"
     if repoName = "" ∨ path = "" then
       (.error (.app "Repository name and file path are required" 400
         (some "MISSING_REQUIRED_PARAMS")), [])
     else
       httpStep http (mkGetQ ("/repos/" ++ owner ++ "/" ++ repoName ++ "/contents/" ++ path)
         [("ref", if ref = "" then .undef else .str ref)]))

/-- `GithubProvider.actionListBranches(options)`. -/
def GithubProvider.actionListBranches (owner : String) (opts : CallOptions)
    (http : Request → Except JsError Json) : Except JsError Json × List Request :=
  tryWrap (githubCatch "Repository not found" "REPOSITORY_NOT_FOUND"
      "Failed to fetch branches" "FETCH_BRANCHES_FAILED")
    (let options := opts.configsParams.getD []
     let repoName := extractTrim options "repoName"
     if repoName = "" then
       (.error (.app "Repository name is required" 400 (some "MISSING_REQUIRED_PARAMS")), [])
     else
       httpStep http (mkGet ("/repos/" ++ owner ++ "/" ++ repoName ++ "/branches")))

/-- `GithubProvider.actionListBranchCommits(options)` — `branch` is optional and
sent as the `sha` query param or dropped when empty. -/
def GithubProvider.actionListBranchCommits (owner : String) (opts : CallOptions)
    (http : Request → Except JsError Json) : Except JsError Json × List Request :=
  tryWrap (githubCatch "Branch or repository not found" "RESOURCE_NOT_FOUND"
      "Failed to fetch commits" "FETCH_COMMITS_FAILED")
    (let options := opts.configsParams.getD []
     let repoName := extractTrim options "repoName"
     let branch := extractTrim options "branch"
     if repoName = "" then
       (.error (.app "Repository name is required" 400 (some "MISSING_REQUIRED_PARAMS")), [])
     else
       httpStep http (mkGetQ ("/repos/" ++ owner ++ "/" ++ repoName ++ "/commits")
         [("sha", if branch = "" then .undef else .str branch)]))

/-- The per-file record built by `GithubProvider.actionListCommitModifications`
when `includeContent` is falsy. -/
def pickModFields (f : Json) : Json :=
  Json.obj [("filename", (f.get "filename").getD Json.null),
    ("status", (f.get "status").getD Json.null),
    ("additions", (f.get "additions").getD Json.null),
    ("deletions", (f.get "deletions").getD Json.null),
    ("changes", (f.get "changes").getD Json.null)]

/-- `GithubProvider.actionListCommitModifications(options)` — the one GitHub
action whose extraction lacks optional chaining: an absent `repoName` or
`commitSha` entry (or one with an empty `value` array) raises a `TypeError`
(`JsError.bare`) before any check runs; `data.files.map(...)` likewise raises
when `files` is not an array. -/
def GithubProvider.actionListCommitModifications (owner : String) (opts : CallOptions)
    (http : Request → Except JsError Json) : Except JsError Json × List Request :=
  tryWrap (githubCatch "Commit or repository not found" "RESOURCE_NOT_FOUND"
      "Failed to fetch commit modifications" "FETCH_MODIFICATIONS_FAILED")
    (let options := opts.configsParams.getD []
     match extractTrimUnguarded options "repoName" with
     | none => (.error .bare, [])
     | some repoName =>
       match extractTrimUnguarded options "commitSha" with
       | none => (.error .bare, [])
       | some commitSha =>
         let includeContent := jsTruthyOpt (extractRaw options "includeContent")
         if repoName = "" ∨ commitSha = "" then
           (.error (.app "Repository name and commit SHA are required" 400
             (some "MISSING_REQUIRED_PARAMS")), [])
         else
           let req := mkGet ("/repos/" ++ owner ++ "/" ++ repoName ++ "/commits/" ++ commitSha)
           match http req with
           | .error e => (.error e, [req])
           | .ok d =>
             if includeContent then ((.ok ((d.get "files").getD Json.null)), [req])
             else
               match d.get "files" with
               | some (Json.arr fs) => (.ok (Json.arr (fs.map pickModFields)), [req])
               | _ => (.error .bare, [req]))

/-- The response shaping of `GithubProvider.actionGetCommitDetails`; accessing
`data.commit.message` on a payload without a `commit` member raises a
`TypeError`. -/
def shapeCommitDetails (d : Json) : Except JsError Json :=
  match d.get "commit" with
  | none => .error .bare
  | some c =>
    .ok (Json.obj [("sha", (d.get "sha").getD Json.null),
      ("author", (d.get "author").getD Json.null),
      ("committer", (d.get "committer").getD Json.null),
      ("commit", Json.obj [("message", (c.get "message").getD Json.null),
        ("author", (c.get "author").getD Json.null),
        ("committer", (c.get "committer").getD Json.null),
        ("verification", (c.get "verification").getD Json.null)]),
      ("stats", (d.get "stats").getD Json.null),
      ("files", (d.get "files").getD Json.null),
      ("parents", (d.get "parents").getD Json.null),
      ("html_url", (d.get "html_url").getD Json.null)])

/-- `GithubProvider.actionGetCommitDetails(options)`. -/
def GithubProvider.actionGetCommitDetails (owner : String) (opts : CallOptions)
    (http : Request → Except JsError Json) : Except JsError Json × List Request :=
  tryWrap (githubCatch "Commit or repository not found" "RESOURCE_NOT_FOUND"
      "Failed to fetch commit details" "FETCH_COMMIT_DETAILS_FAILED")
    (let options := opts.configsParams.getD []
     let repoName := extractTrim options "repoName"
     let commitSha := extractTrim options "commitSha"
     if repoName = "" ∨ commitSha = "" then
       (.error (.app "Repository name and commit SHA are required" 400
         (some "MISSING_REQUIRED_PARAMS")), [])
     else
       let req := mkGet ("/repos/" ++ owner ++ "/" ++ repoName ++ "/commits/" ++ commitSha)
       match http req with
       | .error e => (.error e, [req])
       | .ok d => (shapeCommitDetails d, [req]))

/-- `GithubProvider.actionCommitsDiff(options)` — `filePath` is extracted without
a `|| ""` fallback and sent as the `path` query param or dropped when empty or
absent. -/
def GithubProvider.actionCommitsDiff (owner : String) (opts : CallOptions)
    (http : Request → Except JsError Json) : Except JsError Json × List Request :=
  tryWrap (githubCatch "Repository or commits not found" "RESOURCE_NOT_FOUND"
      "Failed to compare commits" "COMPARE_COMMITS_FAILED")
    (let options := opts.configsParams.getD []
     let repoName := extractTrim options "repoName"
     let baseCommit := extractTrim options "baseCommit"
     let headCommit := extractTrim options "headCommit"
     let filePath := (extractRaw options "filePath").map jsTrim
     if repoName = "" ∨ baseCommit = "" ∨ headCommit = "" then
       (.error (.app "Repository name, base commit and head commit are required" 400
         (some "MISSING_REQUIRED_PARAMS")), [])
     else
       httpStep http (mkGetQ
         ("/repos/" ++ owner ++ "/" ++ repoName ++ "/compare/" ++ baseCommit ++ "..." ++ headCommit)
         [("path", match filePath with
           | some s => if s = "" then .undef else .str s
           | none => .undef)]))

/-- `GithubProvider.actionCommentPrs(options)`. -/
def GithubProvider.actionCommentPrs (owner : String) (opts : CallOptions)
    (http : Request → Except JsError Json) : Except JsError Json × List Request :=
  tryWrap (githubCatch "Pull request or repository not found" "RESOURCE_NOT_FOUND"
      "Failed to create PR comment" "CREATE_COMMENT_FAILED")
    (let options := opts.configsParams.getD []
     let repoName := extractTrim options "repoName"
     let prNumber := extractTrim options "prNumber"
     let comment := extractTrim options "comment"
     if repoName = "" ∨ prNumber = "" ∨ comment = "" then
       (.error (.app "Repository name, PR number and comment text are required" 400
         (some "MISSING_REQUIRED_PARAMS")), [])
     else
       httpStep http (mkPost
         ("/repos/" ++ owner ++ "/" ++ repoName ++ "/issues/" ++ prNumber ++ "/comments")
         (Json.obj [("body", Json.str comment)])))

/-- `GithubProvider.actionListPipelines(options)`. -/
def GithubProvider.actionListPipelines (owner : String) (opts : CallOptions)
    (http : Request → Except JsError Json) : Except JsError Json × List Request :=
  tryWrap (githubCatch "Repository not found" "RESOURCE_NOT_FOUND"
      "Failed to fetch pipelines" "FETCH_PIPELINES_FAILED")
    (let options := opts.configsParams.getD []
     let repoName := extractTrim options "repoName"
     if repoName = "" then
       (.error (.app "Repository name is required" 400 (some "MISSING_REQUIRED_PARAMS")), [])
     else
       httpStep http (mkGet ("/repos/" ++ owner ++ "/" ++ repoName ++ "/methods/workflows")))

/-- `GithubProvider.actionListDeployments(options)`. -/
def GithubProvider.actionListDeployments (owner : String) (opts : CallOptions)
    (http : Request → Except JsError Json) : Except JsError Json × List Request :=
  tryWrap (githubCatch "Repository not found" "RESOURCE_NOT_FOUND"
      "Failed to fetch deployments" "FETCH_DEPLOYMENTS_FAILED")
    (let options := opts.configsParams.getD []
     let repoName := extractTrim options "repoName"
     if repoName = "" then
       (.error (.app "Repository name is required" 400 (some "MISSING_REQUIRED_PARAMS")), [])
     else
       httpStep http (mkGet ("/repos/" ++ owner ++ "/" ++ repoName ++ "/deployments")))

/-- `GithubProvider.actionUpdatePluginConfig(options)`: save `options.configs`
through `ConfigManager.saveConfigs`, then re-run `init()`; any failure of either
step is wrapped as 500 `CONFIG_UPDATE_FAILED`.  `save` is the store's
`saveConfigs`, `storedAfter` is what `ConfigManager.getConfig("github_config")`
returns when `init` re-reads the store, and the last component of the result
records the values passed to `saveConfigs`. -/
def GithubProvider.actionUpdatePluginConfig (st : GithubState) (optionsConfigs : Json)
    (save : Json → Except JsError Unit) (storedAfter : Option (List ParamEntry))
    (userCall : String → Except JsError Json) :
    GithubState × Except JsError Json × List Json :=
  match save optionsConfigs with
  | .error _ =>
    (st, .error (.app "Failed to update plugin configuration" 500
      (some "CONFIG_UPDATE_FAILED")), [optionsConfigs])
  | .ok _ =>
    match GithubProvider.init st storedAfter userCall with
    | (st', .ok _) =>
      (st', .ok (Json.obj [("message", Json.str "Configuration updated successfully"),
        ("configs", optionsConfigs)]), [optionsConfigs])
    | (st', .error _) =>
      (st', .error (.app "Failed to update plugin configuration" 500
        (some "CONFIG_UPDATE_FAILED")), [optionsConfigs])

/-- `configs?.params?.find((par) => par?.key === k)?.value || ""` as used by
`BitbucketProvider.init`: the whole `value` array (truthy even when empty) or,
as `none`, the falsy `""` fallback. -/
def bitbucketCred (cfgParams : Option (List ParamEntry)) (k : String) :
    Option (List String) :=
  cfgParams.bind (fun ps => (findParam ps k).map (fun par => par.value))

/-- JavaScript string interpolation of the array-or-`""` owner value
(`${this.owner}` joins an array with commas). -/
def jsShowOwner (o : Option (List String)) : String :=
  match o with
  | none => ""
  | some l => String.intercalate "," l

structure BitbucketClient where
  username : List String
  password : List String
  deriving DecidableEq, Repr

/-- Bitbucket provider runtime state; `owner` holds the raw
`find(...)?.value || ""` result (an array, or `none` for `""`). -/
structure BitbucketState where
  client : Option BitbucketClient
  owner : Option (List String)
  deriving DecidableEq, Repr

/-- `BitbucketProvider.createClient(username, appPassword)`: install the basic-auth
client, probe `GET /user`, and wrap any probe failure as 401 `AUTH_FAILED`.
`userCall` is the probe outcome. -/
def BitbucketProvider.createClient (st : BitbucketState) (username appPassword : List String)
    (userCall : Except JsError Json) : BitbucketState × Except JsError Json :=
  let st' : BitbucketState := { st with client := some { username := username, password := appPassword } }
  match userCall with
  | .ok d => (st', .ok d)
  | .error _ => (st', .error (.app "Bitbucket authentication failed" 401 (some "AUTH_FAILED")))

/-- `BitbucketProvider.init()`: `username`/`appPassword`/`owner` are read with
`?.value || ""` (no `[0]`), so presence of the entry — even with an empty value
array — counts as truthy; the `catch` re-throws status-401 errors and wraps the
rest as a two-argument 500 `AppError`. -/
def BitbucketProvider.init (st : BitbucketState) (cfgParams : Option (List ParamEntry))
    (userCall : Except JsError Json) : BitbucketState × Except JsError Unit :=
  let username := bitbucketCred cfgParams "username"
  let appPassword := bitbucketCred cfgParams "appPassword"
  let st1 : BitbucketState := { st with owner := bitbucketCred cfgParams "owner" }
  match username, appPassword with
  | some u, some p =>
    (match BitbucketProvider.createClient st1 u p userCall with
     | (st2, .ok _) => (st2, .ok ())
     | (st2, .error e) =>
       if e.is401 then (st2, .error e)
       else (st2, .error (.app "Failed to initialize Bitbucket provider" 500 none)))
  | _, _ =>
    (st1, .error (.app "Bitbucket credentials not found" 401 (some "AUTH_FAILED")))

/-- `BitbucketProvider.actionListBitbucketWorkspaces(options)`; the success value
is `data.values || []`. -/
def BitbucketProvider.actionListBitbucketWorkspaces (opts : CallOptions)
    (http : Request → Except JsError Json) : Except JsError Json × List Request :=
  tryWrap (bitbucket400Catch "Failed to fetch workspaces" "FETCH_WORKSPACES_FAILED")
    (let options := opts.configsParams.getD []
     let page : QVal :=
       match extractRaw options "page" with
       | some v => if v = "" then .num 1 else .str v
       | none => .num 1
     let role := extractOr options "role" "member"
     let req := mkGetQ "/workspaces" [("page", page), ("pagelen", .num 50), ("role", .str role)]
     match http req with
     | .error e => (.error e, [req])
     | .ok d =>
       (.ok (match d.get "values" with
         | some v => if v.truthy then v else Json.arr []
         | none => Json.arr []), [req]))

/-- `BitbucketProvider.actionListRepos(options)` — the source defines this method
twice and the later definition silently wins; this is that surviving body.  It
reads `sort`, `page` and `perPage` from the TOP LEVEL of `options`, not from
`options.configs.params`, and wraps every failure as 500. -/
def BitbucketProvider.actionListRepos (owner : Option (List String)) (opts : CallOptions)
    (http : Request → Except JsError Json) : Except JsError Json × List Request :=
  tryWrap (bitbucketAllCatch "Failed to fetch repositories" "FETCH_REPOS_FAILED")
    (let sortVal :=
       match opts.sort with
       | some s => if s = "" then "-updated_on" else s
       | none => "-updated_on"
     let page : QVal :=
       match opts.page with
       | some n => if n = 0 then .num 1 else .num n
       | none => .num 1
     let pagelen : QVal :=
       match opts.perPage with
       | some n => if n = 0 then .num 50 else .num n
       | none => .num 50
     let req := mkGetQ ("/repositories/" ++ jsShowOwner owner)
       [("sort", .str sortVal), ("page", page), ("pagelen", pagelen)]
     match http req with
     | .error e => (.error e, [req])
     | .ok d => (.ok ((d.get "values").getD Json.null), [req]))

/-- `BitbucketProvider.actionGetRepo(options)` — a missing `repoName` throws a
bare `new Error()`, and the `catch` wraps EVERY failure as 500
`FETCH_REPO_FAILED`. -/
def BitbucketProvider.actionGetRepo (owner : Option (List String)) (opts : CallOptions)
    (http : Request → Except JsError Json) : Except JsError Json × List Request :=
  tryWrap (bitbucketAllCatch "Failed to fetch repository" "FETCH_REPO_FAILED")
    (let options := opts.configsParams.getD []
     let repoName := extractTrim options "repoName"
     if repoName = "" then (.error .bare, [])
     else
       httpStep http (mkGet ("/repositories/" ++ jsShowOwner owner ++ "/" ++ repoName)))

/-- `BitbucketProvider.actionListRepoContents(options)` — `ref` (a commit) is
required alongside `repoName`; success value is `data.values || data`. -/
def BitbucketProvider.actionListRepoContents (owner : Option (List String)) (opts : CallOptions)
    (http : Request → Except JsError Json) : Except JsError Json × List Request :=
  tryWrap (bitbucket400Catch "Failed to fetch repository contents" "FETCH_CONTENTS_FAILED")
    (let options := opts.configsParams.getD []
     let repoName := extractTrim options "repoName"
     let commit := extractTrim options "ref"
     if repoName = "" ∨ commit = "" then
       (.error (.app "Repository name and commit are required" 400
         (some "MISSING_REQUIRED_PARAMS")), [])
     else
       let req := mkGet ("/repositories/" ++ jsShowOwner owner ++ "/" ++ repoName ++ "/src" ++
         (if commit = "" then "" else "/" ++ commit) ++ "/")
       match http req with
       | .error e => (.error e, [req])
       | .ok d =>
         (.ok (match d.get "values" with
           | some v => if v.truthy then v else d
           | none => d), [req]))

/-- `BitbucketProvider.actionGetRepoFileContent(options)` — `ref` defaults to
`"master"`; the 400 validation `AppError` is built WITHOUT an `errorCode`. -/
def BitbucketProvider.actionGetRepoFileContent (owner : Option (List String)) (opts : CallOptions)
    (http : Request → Except JsError Json) : Except JsError Json × List Request :=
  tryWrap (bitbucket400Catch "Failed to fetch file content" "FETCH_CONTENT_FAILED")
    (let options := opts.configsParams.getD []
     let repoName := extractTrim options "repoName"
     let path := extractTrim options "path"
     let ref :=
       let r := extractTrim options "ref"
       if r = "" then "master" else r
     if repoName = "" ∨ ref = "" ∨ path = "" then
       (.error (.app
         "In order to fetch file/directory contents from Bitbucket please fill all required fields."
         400 none), [])
     else
       httpStep http (mkGet ("/repositories/" ++ jsShowOwner owner ++ "/" ++ repoName ++ "/src" ++
         (if ref = "" then "" else "/" ++ ref) ++ "/" ++ path)))

/-- `BitbucketProvider.actionListRepoBranches(options)` — the 400 validation
`AppError` is built WITHOUT an `errorCode`; success value is `data.values`. -/
def BitbucketProvider.actionListRepoBranches (owner : Option (List String)) (opts : CallOptions)
    (http : Request → Except JsError Json) : Except JsError Json × List Request :=
  tryWrap (bitbucket400Catch "Failed to fetch branches" "FETCH_BRANCHES_FAILED")
    (let options := opts.configsParams.getD []
     let repoName := extractTrim options "repoName"
     if repoName = "" then
       (.error (.app "Please required field (repository name)" 400 none), [])
     else
       let req := mkGet ("/repositories/" ++ jsShowOwner owner ++ "/" ++ repoName ++ "/refs/branches")
       match http req with
       | .error e => (.error e, [req])
       | .ok d => (.ok ((d.get "values").getD Json.null), [req]))

/-- `BitbucketProvider.actionListBranchCommits(options)` — a missing `repoName`
throws a bare `new Error()`, and the `catch` wraps EVERY failure (a 404
included) as 500 `FETCH_COMMITS_FAILED`. -/
def BitbucketProvider.actionListBranchCommits (owner : Option (List String)) (opts : CallOptions)
    (http : Request → Except JsError Json) : Except JsError Json × List Request :=
  tryWrap (bitbucketAllCatch "Failed to fetch commits" "FETCH_COMMITS_FAILED")
    (let options := opts.configsParams.getD []
     let repoName := extractTrim options "repoName"
     let branch := extractTrim options "branch"
     if repoName = "" then (.error .bare, [])
     else
       let req := mkGet ("/repositories/" ++ jsShowOwner owner ++ "/" ++ repoName ++
         "/commits/" ++ branch)
       match http req with
       | .error e => (.error e, [req])
       | .ok d => (.ok ((d.get "values").getD Json.null), [req]))

/-- The enrichment `BitbucketProvider.actionListCommitModifications` applies to
each diffstat entry (`{...modification, diffContent, commitHash, repository}`). -/
def enrichModification (diffContent : Json) (commitSha repoName : String) (m : Json) : Json :=
  Json.obj ((match m with | .obj ms => ms | _ => []) ++
    [("diffContent", diffContent), ("commitHash", Json.str commitSha),
     ("repository", Json.str repoName)])

/-- `BitbucketProvider.actionListCommitModifications(options)` — fetches the
diffstat, optionally the full diff, then maps `statsData.values` (a `TypeError`
when `values` is not an array). -/
def BitbucketProvider.actionListCommitModifications (owner : Option (List String))
    (opts : CallOptions) (http : Request → Except JsError Json) :
    Except JsError Json × List Request :=
  tryWrap (bitbucket400Catch "Failed to fetch commit modifications" "FETCH_MODIFICATIONS_FAILED")
    (let options := opts.configsParams.getD []
     let repoName := extractTrim options "repoName"
     let commitSha := extractTrim options "commitSha"
     let includeContent := jsTruthyOpt (extractRaw options "includeContent")
     if repoName = "" ∨ commitSha = "" then
       (.error (.app "Repository name and commit SHA are required" 400
         (some "MISSING_REQUIRED_PARAMS")), [])
     else
       let statsReq := mkGet ("/repositories/" ++ jsShowOwner owner ++ "/" ++ repoName ++
         "/diffstat/" ++ commitSha)
       match http statsReq with
       | .error e => (.error e, [statsReq])
       | .ok statsData =>
         if includeContent then
           let diffReq := mkGet ("/repositories/" ++ jsShowOwner owner ++ "/" ++ repoName ++
             "/diff/" ++ commitSha)
           match http diffReq with
           | .error e => (.error e, [statsReq, diffReq])
           | .ok contentData =>
             (match statsData.get "values" with
              | some (Json.arr vs) =>
                (.ok (Json.arr (vs.map (enrichModification contentData commitSha repoName))),
                  [statsReq, diffReq])
              | _ => (.error .bare, [statsReq, diffReq]))
         else
           (match statsData.get "values" with
            | some (Json.arr vs) =>
              (.ok (Json.arr (vs.map (enrichModification Json.null commitSha repoName))),
                [statsReq])
            | _ => (.error .bare, [statsReq])))

/-- `BitbucketProvider.actionGetCommitDetails(options)` — checks the repository
first (its own 404 `AppError` when `repoCheck.data` is falsy), then fetches the
commit; the `catch` maps status-404 to `RESOURCE_NOT_FOUND` and everything else
(the 400 `MISSING_REQUIRED_PARAMS` throw included, since there is no 400
pass-through) to 500 `FETCH_COMMIT_DETAILS_FAILED`. -/
def BitbucketProvider.actionGetCommitDetails (owner : Option (List String)) (opts : CallOptions)
    (http : Request → Except JsError Json) : Except JsError Json × List Request :=
  tryWrap (fun e =>
      if e.is404 then .app "Repository or commit not found" 404 (some "RESOURCE_NOT_FOUND")
      else .app "Failed to fetch commit details" 500 (some "FETCH_COMMIT_DETAILS_FAILED"))
    (let options := opts.configsParams.getD []
     let repoName := extractTrim options "repoName"
     let commitSha := extractTrim options "commitSha"
     if repoName = "" ∨ commitSha = "" then
       (.error (.app "Repository name and commit SHA are required" 400
         (some "MISSING_REQUIRED_PARAMS")), [])
     else
       let checkReq := mkGet ("/repositories/" ++ jsShowOwner owner ++ "/" ++ repoName)
       match http checkReq with
       | .error e => (.error e, [checkReq])
       | .ok checkData =>
         if checkData.truthy = false then
           (.error (.app "Repository not found or access denied" 404
             (some "REPOSITORY_NOT_FOUND")), [checkReq])
         else
           let commitReq := mkGet ("/repositories/" ++ jsShowOwner owner ++ "/" ++ repoName ++
             "/commit/" ++ commitSha)
           match http commitReq with
           | .error e => (.error e, [checkReq, commitReq])
           | .ok d =>
             (.ok (Json.obj [("hash", (d.get "hash").getD Json.null),
               ("author", (d.get "author").getD Json.null),
               ("message", (d.get "message").getD Json.null),
               ("date", (d.get "date").getD Json.null),
               ("parents", (d.get "parents").getD Json.null),
               ("repository", (d.get "repository").getD Json.null)]),
               [checkReq, commitReq]))

/-- `BitbucketProvider.actionCommitsDiff(options)`; success value `data || {}`. -/
def BitbucketProvider.actionCommitsDiff (owner : Option (List String)) (opts : CallOptions)
    (http : Request → Except JsError Json) : Except JsError Json × List Request :=
  tryWrap (bitbucket400Catch "Failed to compare commits" "COMPARE_COMMITS_FAILED")
    (let options := opts.configsParams.getD []
     let repoName := extractTrim options "repoName"
     let baseCommit := extractTrim options "baseCommit"
     let headCommit := extractTrim options "headCommit"
     if repoName = "" ∨ baseCommit = "" ∨ headCommit = "" then
       (.error (.app "Repository name, base commit and head commit are required" 400
         (some "MISSING_REQUIRED_PARAMS")), [])
     else
       let req := mkGet ("/repositories/" ++ jsShowOwner owner ++ "/" ++ repoName ++
         "/diff/" ++ baseCommit ++ ".." ++ headCommit)
       match http req with
       | .error e => (.error e, [req])
       | .ok d => (.ok (if d.truthy then d else Json.obj []), [req]))

/-- `BitbucketProvider.actionCommentPRs(options)`. -/
def BitbucketProvider.actionCommentPRs (owner : Option (List String)) (opts : CallOptions)
    (http : Request → Except JsError Json) : Except JsError Json × List Request :=
  tryWrap (bitbucket400Catch "Failed to add comment to pull request" "COMMENT_PR_FAILED")
    (let options := opts.configsParams.getD []
     let repoName := extractTrim options "repoName"
     let prNumber := extractTrim options "prNumber"
     let comment := extractTrim options "comment"
     if repoName = "" ∨ prNumber = "" ∨ comment = "" then
       (.error (.app "Repository name, PR number and comment text are required" 400
         (some "MISSING_REQUIRED_PARAMS")), [])
     else
       httpStep http (mkPost
         ("/repositories/" ++ jsShowOwner owner ++ "/" ++ repoName ++ "/pullrequests/" ++
          prNumber ++ "/comments")
         (Json.obj [("content", Json.obj [("raw", Json.str comment)])])))

/-- `BitbucketProvider.actionListPipelines(options)`; success `data.values || []`. -/
def BitbucketProvider.actionListPipelines (owner : Option (List String)) (opts : CallOptions)
    (http : Request → Except JsError Json) : Except JsError Json × List Request :=
  tryWrap (bitbucket400Catch "Failed to fetch pipelines" "FETCH_PIPELINES_FAILED")
    (let options := opts.configsParams.getD []
     let repoName := extractTrim options "repoName"
     if repoName = "" then
       (.error (.app "Repository name is required" 400 (some "MISSING_REQUIRED_PARAMS")), [])
     else
       let req := mkGet ("/repositories/" ++ jsShowOwner owner ++ "/" ++ repoName ++ "/pipelines/")
       match http req with
       | .error e => (.error e, [req])
       | .ok d =>
         (.ok (match d.get "values" with
           | some v => if v.truthy then v else Json.arr []
           | none => Json.arr []), [req]))

/-- `BitbucketProvider.actionListDeployments(options)`; success `data.values || []`. -/
def BitbucketProvider.actionListDeployments (owner : Option (List String)) (opts : CallOptions)
    (http : Request → Except JsError Json) : Except JsError Json × List Request :=
  tryWrap (bitbucket400Catch "Failed to fetch deployments" "FETCH_DEPLOYMENTS_FAILED")
    (let options := opts.configsParams.getD []
     let repoName := extractTrim options "repoName"
     if repoName = "" then
       (.error (.app "Repository name is required" 400 (some "MISSING_REQUIRED_PARAMS")), [])
     else
       let req := mkGet ("/repositories/" ++ jsShowOwner owner ++ "/" ++ repoName ++ "/deployments")
       match http req with
       | .error e => (.error e, [req])
       | .ok d =>
         (.ok (match d.get "values" with
           | some v => if v.truthy then v else Json.arr []
           | none => Json.arr []), [req]))

/-- The Parameter Extractor contract written from the spec's words (spec 4.1):
the first value of the matching entry's `value` sequence, trimmed, or the
caller-supplied default if no entry matches or the value sequence is empty. -/
def specParamExtract (params : List ParamEntry) (k : String) (dflt : String) : String :=
  match findParam params k with
  | none => dflt
  | some par =>
    match par.value.head? with
    | none => dflt
    | some v => jsTrim v

/-- Options value with the given `configs.params` and no top-level fields. -/
def optsOfParams (ps : List ParamEntry) : CallOptions :=
  { configsParams := some ps, sort := none, page := none, perPage := none }

/-- An HTTP client whose every call fails with a raw transport 404. -/
def http404 : Request → Except JsError Json := fun _ => .error (.http 404)

/-- An HTTP client whose every call fails with a raw transport 401. -/
def http401 : Request → Except JsError Json := fun _ => .error (.http 401)

/-- An HTTP client whose every call succeeds with `null` data. -/
def httpOkNull : Request → Except JsError Json := fun _ => .ok Json.null

/-- A `configs.params` list supplying every per-call parameter the actions
read, used to instantiate witnesses. -/
def fullParams : List ParamEntry :=
  [⟨"repoName", ["r"]⟩, ⟨"path", ["p"]⟩, ⟨"ref", ["x"]⟩, ⟨"branch", ["b"]⟩,
   ⟨"commitSha", ["c"]⟩, ⟨"baseCommit", ["b1"]⟩, ⟨"headCommit", ["h2"]⟩,
   ⟨"prNumber", ["1"]⟩, ⟨"comment", ["hi"]⟩]

/-- C1 counterexample: `BitbucketProvider.actionGetRepo` invoked with its
required `repoName` parameter absent performs zero HTTP calls but fails with
`{statusCode: 500, errorCode: "FETCH_REPO_FAILED"}`, not the claimed
`{statusCode: 400, errorCode: "MISSING_REQUIRED_PARAMS"}`. -/
theorem C1_counterexample :
    BitbucketProvider.actionGetRepo (some ["acme"]) (optsOfParams []) httpOkNull =
      (.error (.app "Failed to fetch repository" 500 (some "FETCH_REPO_FAILED")), []) ∧
    (JsError.app "Failed to fetch repository" 500 (some "FETCH_REPO_FAILED")).statusCodeOf ≠
      some 400 ∧
    (JsError.app "Failed to fetch repository" 500 (some "FETCH_REPO_FAILED")).errorCodeOf ≠
      some "MISSING_REQUIRED_PARAMS" :=
  ⟨rfl, by decide, by decide⟩

/-- C1 amended: with a required parameter absent or blank, each
`GithubProvider` action other than `actionListCommitModifications`, and each of
`BitbucketProvider.actionListRepoContents`, `actionListCommitModifications`,
`actionCommitsDiff`, `actionCommentPRs`, `actionListPipelines` and
`actionListDeployments`, fails with 400 `MISSING_REQUIRED_PARAMS` and zero HTTP
calls.  The exceptions, all still performing zero HTTP calls:
`GithubProvider.actionListCommitModifications` fails 400 only when the entry is
present but blank and raises a `TypeError` wrapped as 500
`FETCH_MODIFICATIONS_FAILED` when the entry is absent;
`BitbucketProvider.actionGetRepo`, `actionListBranchCommits` and
`actionGetCommitDetails` wrap the missing-parameter failure as an
action-specific 500; `BitbucketProvider.actionGetRepoFileContent` and
`actionListRepoBranches` fail 400 but without the `MISSING_REQUIRED_PARAMS`
error code. -/
theorem C1_amended (owner : String) (bowner : Option (List String)) (opts : CallOptions)
    (http : Request → Except JsError Json) (csha : String) :
    (extractTrim (opts.configsParams.getD []) "repoName" = "" →
      GithubProvider.actionGetRepo owner opts http =
        (.error (.app "Repository name is required" 400 (some "MISSING_REQUIRED_PARAMS")), [])) ∧
    (extractTrim (opts.configsParams.getD []) "repoName" = "" →
      GithubProvider.actionListRepoContents owner opts http =
        (.error (.app "Repository name is required" 400 (some "MISSING_REQUIRED_PARAMS")), [])) ∧
    (extractTrim (opts.configsParams.getD []) "repoName" = "" ∨
        extractTrim (opts.configsParams.getD []) "path" = "" →
      GithubProvider.actionGetRepoFileContent owner opts http =
        (.error (.app "Repository name and file path are required" 400
          (some "MISSING_REQUIRED_PARAMS")), [])) ∧
    (extractTrim (opts.configsParams.getD []) "repoName" = "" →
      GithubProvider.actionListBranches owner opts http =
        (.error (.app "Repository name is required" 400 (some "MISSING_REQUIRED_PARAMS")), [])) ∧
    (extractTrim (opts.configsParams.getD []) "repoName" = "" →
      GithubProvider.actionListBranchCommits owner opts http =
        (.error (.app "Repository name is required" 400 (some "MISSING_REQUIRED_PARAMS")), [])) ∧
    (extractTrim (opts.configsParams.getD []) "repoName" = "" ∨
        extractTrim (opts.configsParams.getD []) "commitSha" = "" →
      GithubProvider.actionGetCommitDetails owner opts http =
        (.error (.app "Repository name and commit SHA are required" 400
          (some "MISSING_REQUIRED_PARAMS")), [])) ∧
    (extractTrim (opts.configsParams.getD []) "repoName" = "" ∨
        extractTrim (opts.configsParams.getD []) "baseCommit" = "" ∨
        extractTrim (opts.configsParams.getD []) "headCommit" = "" →
      GithubProvider.actionCommitsDiff owner opts http =
        (.error (.app "Repository name, base commit and head commit are required" 400
          (some "MISSING_REQUIRED_PARAMS")), [])) ∧
    (extractTrim (opts.configsParams.getD []) "repoName" = "" ∨
        extractTrim (opts.configsParams.getD []) "prNumber" = "" ∨
        extractTrim (opts.configsParams.getD []) "comment" = "" →
      GithubProvider.actionCommentPrs owner opts http =
        (.error (.app "Repository name, PR number and comment text are required" 400
          (some "MISSING_REQUIRED_PARAMS")), [])) ∧
    (extractTrim (opts.configsParams.getD []) "repoName" = "" →
      GithubProvider.actionListPipelines owner opts http =
        (.error (.app "Repository name is required" 400 (some "MISSING_REQUIRED_PARAMS")), [])) ∧
    (extractTrim (opts.configsParams.getD []) "repoName" = "" →
      GithubProvider.actionListDeployments owner opts http =
        (.error (.app "Repository name is required" 400 (some "MISSING_REQUIRED_PARAMS")), [])) ∧
    (extractTrimUnguarded (opts.configsParams.getD []) "repoName" = some "" →
      extractTrimUnguarded (opts.configsParams.getD []) "commitSha" = some csha →
      GithubProvider.actionListCommitModifications owner opts http =
        (.error (.app "Repository name and commit SHA are required" 400
          (some "MISSING_REQUIRED_PARAMS")), [])) ∧
    (extractTrimUnguarded (opts.configsParams.getD []) "repoName" = none →
      GithubProvider.actionListCommitModifications owner opts http =
        (.error (.app "Failed to fetch commit modifications" 500
          (some "FETCH_MODIFICATIONS_FAILED")), [])) ∧
    (extractTrim (opts.configsParams.getD []) "repoName" = "" ∨
        extractTrim (opts.configsParams.getD []) "ref" = "" →
      BitbucketProvider.actionListRepoContents bowner opts http =
        (.error (.app "Repository name and commit are required" 400
          (some "MISSING_REQUIRED_PARAMS")), [])) ∧
    (extractTrim (opts.configsParams.getD []) "repoName" = "" ∨
        extractTrim (opts.configsParams.getD []) "commitSha" = "" →
      BitbucketProvider.actionListCommitModifications bowner opts http =
        (.error (.app "Repository name and commit SHA are required" 400
          (some "MISSING_REQUIRED_PARAMS")), [])) ∧
    (extractTrim (opts.configsParams.getD []) "repoName" = "" ∨
        extractTrim (opts.configsParams.getD []) "baseCommit" = "" ∨
        extractTrim (opts.configsParams.getD []) "headCommit" = "" →
      BitbucketProvider.actionCommitsDiff bowner opts http =
        (.error (.app "Repository name, base commit and head commit are required" 400
          (some "MISSING_REQUIRED_PARAMS")), [])) ∧
    (extractTrim (opts.configsParams.getD []) "repoName" = "" ∨
        extractTrim (opts.configsParams.getD []) "prNumber" = "" ∨
        extractTrim (opts.configsParams.getD []) "comment" = "" →
      BitbucketProvider.actionCommentPRs bowner opts http =
        (.error (.app "Repository name, PR number and comment text are required" 400
          (some "MISSING_REQUIRED_PARAMS")), [])) ∧
    (extractTrim (opts.configsParams.getD []) "repoName" = "" →
      BitbucketProvider.actionListPipelines bowner opts http =
        (.error (.app "Repository name is required" 400 (some "MISSING_REQUIRED_PARAMS")), [])) ∧
    (extractTrim (opts.configsParams.getD []) "repoName" = "" →
      BitbucketProvider.actionListDeployments bowner opts http =
        (.error (.app "Repository name is required" 400 (some "MISSING_REQUIRED_PARAMS")), [])) ∧
    (extractTrim (opts.configsParams.getD []) "repoName" = "" →
      BitbucketProvider.actionGetRepo bowner opts http =
        (.error (.app "Failed to fetch repository" 500 (some "FETCH_REPO_FAILED")), [])) ∧
    (extractTrim (opts.configsParams.getD []) "repoName" = "" →
      BitbucketProvider.actionListBranchCommits bowner opts http =
        (.error (.app "Failed to fetch commits" 500 (some "FETCH_COMMITS_FAILED")), [])) ∧
    (extractTrim (opts.configsParams.getD []) "repoName" = "" ∨
        extractTrim (opts.configsParams.getD []) "commitSha" = "" →
      BitbucketProvider.actionGetCommitDetails bowner opts http =
        (.error (.app "Failed to fetch commit details" 500
          (some "FETCH_COMMIT_DETAILS_FAILED")), [])) ∧
    (extractTrim (opts.configsParams.getD []) "repoName" = "" ∨
        extractTrim (opts.configsParams.getD []) "path" = "" →
      BitbucketProvider.actionGetRepoFileContent bowner opts http =
        (.error (.app
          "In order to fetch file/directory contents from Bitbucket please fill all required fields."
          400 none), [])) ∧
    (extractTrim (opts.configsParams.getD []) "repoName" = "" →
      BitbucketProvider.actionListRepoBranches bowner opts http =
        (.error (.app "Please required field (repository name)" 400 none), [])) := by
  refine ⟨?_, ?_, ?_, ?_, ?_, ?_, ?_, ?_, ?_, ?_, ?_, ?_, ?_, ?_, ?_, ?_, ?_, ?_, ?_, ?_,
    ?_, ?_, ?_⟩
  · intro h
    simp [GithubProvider.actionGetRepo, tryWrap, githubCatch, JsError.is404, JsError.is400, h]
  · intro h
    simp [GithubProvider.actionListRepoContents, tryWrap, githubCatch, JsError.is404,
      JsError.is400, h]
  · rintro (h | h) <;>
      simp [GithubProvider.actionGetRepoFileContent, tryWrap, githubCatch, JsError.is404,
        JsError.is400, h]
  · intro h
    simp [GithubProvider.actionListBranches, tryWrap, githubCatch, JsError.is404,
      JsError.is400, h]
  · intro h
    simp [GithubProvider.actionListBranchCommits, tryWrap, githubCatch, JsError.is404,
      JsError.is400, h]
  · rintro (h | h) <;>
      simp [GithubProvider.actionGetCommitDetails, tryWrap, githubCatch, JsError.is404,
        JsError.is400, h]
  · rintro (h | h | h) <;>
      simp [GithubProvider.actionCommitsDiff, tryWrap, githubCatch, JsError.is404,
        JsError.is400, h]
  · rintro (h | h | h) <;>
      simp [GithubProvider.actionCommentPrs, tryWrap, githubCatch, JsError.is404,
        JsError.is400, h]
  · intro h
    simp [GithubProvider.actionListPipelines, tryWrap, githubCatch, JsError.is404,
      JsError.is400, h]
  · intro h
    simp [GithubProvider.actionListDeployments, tryWrap, githubCatch, JsError.is404,
      JsError.is400, h]
  · intro h1 h2
    simp [GithubProvider.actionListCommitModifications, tryWrap, githubCatch, JsError.is404,
      JsError.is400, h1, h2]
  · intro h
    simp [GithubProvider.actionListCommitModifications, tryWrap, githubCatch, JsError.is404,
      JsError.is400, h]
  · rintro (h | h) <;>
      simp [BitbucketProvider.actionListRepoContents, tryWrap, bitbucket400Catch,
        JsError.is400, h]
  · rintro (h | h) <;>
      simp [BitbucketProvider.actionListCommitModifications, tryWrap, bitbucket400Catch,
        JsError.is400, h]
  · rintro (h | h | h) <;>
      simp [BitbucketProvider.actionCommitsDiff, tryWrap, bitbucket400Catch, JsError.is400, h]
  · rintro (h | h | h) <;>
      simp [BitbucketProvider.actionCommentPRs, tryWrap, bitbucket400Catch, JsError.is400, h]
  · intro h
    simp [BitbucketProvider.actionListPipelines, tryWrap, bitbucket400Catch, JsError.is400, h]
  · intro h
    simp [BitbucketProvider.actionListDeployments, tryWrap, bitbucket400Catch, JsError.is400, h]
  · intro h
    simp [BitbucketProvider.actionGetRepo, tryWrap, bitbucketAllCatch, h]
  · intro h
    simp [BitbucketProvider.actionListBranchCommits, tryWrap, bitbucketAllCatch, h]
  · rintro (h | h) <;>
      simp [BitbucketProvider.actionGetCommitDetails, tryWrap, JsError.is404, h]
  · rintro (h | h) <;>
      simp [BitbucketProvider.actionGetRepoFileContent, tryWrap, bitbucket400Catch,
        JsError.is400, h]
  · intro h
    simp [BitbucketProvider.actionListRepoBranches, tryWrap, bitbucket400Catch,
      JsError.is400, h]
/-- Witness for C1 amended: concrete invocations with the required parameter
absent (empty `params`), and — for `actionListCommitModifications` — present but
whitespace-only. -/
theorem C1_amended_witness :
    GithubProvider.actionGetRepo "acme" (optsOfParams []) httpOkNull =
      (.error (.app "Repository name is required" 400 (some "MISSING_REQUIRED_PARAMS")), []) ∧
    GithubProvider.actionListRepoContents "acme" (optsOfParams []) httpOkNull =
      (.error (.app "Repository name is required" 400 (some "MISSING_REQUIRED_PARAMS")), []) ∧
    GithubProvider.actionGetRepoFileContent "acme" (optsOfParams []) httpOkNull =
      (.error (.app "Repository name and file path are required" 400
        (some "MISSING_REQUIRED_PARAMS")), []) ∧
    GithubProvider.actionListBranches "acme" (optsOfParams []) httpOkNull =
      (.error (.app "Repository name is required" 400 (some "MISSING_REQUIRED_PARAMS")), []) ∧
    GithubProvider.actionListBranchCommits "acme" (optsOfParams []) httpOkNull =
      (.error (.app "Repository name is required" 400 (some "MISSING_REQUIRED_PARAMS")), []) ∧
    GithubProvider.actionGetCommitDetails "acme" (optsOfParams []) httpOkNull =
      (.error (.app "Repository name and commit SHA are required" 400
        (some "MISSING_REQUIRED_PARAMS")), []) ∧
    GithubProvider.actionCommitsDiff "acme" (optsOfParams []) httpOkNull =
      (.error (.app "Repository name, base commit and head commit are required" 400
        (some "MISSING_REQUIRED_PARAMS")), []) ∧
    GithubProvider.actionCommentPrs "acme" (optsOfParams []) httpOkNull =
      (.error (.app "Repository name, PR number and comment text are required" 400
        (some "MISSING_REQUIRED_PARAMS")), []) ∧
    GithubProvider.actionListPipelines "acme" (optsOfParams []) httpOkNull =
      (.error (.app "Repository name is required" 400 (some "MISSING_REQUIRED_PARAMS")), []) ∧
    GithubProvider.actionListDeployments "acme" (optsOfParams []) httpOkNull =
      (.error (.app "Repository name is required" 400 (some "MISSING_REQUIRED_PARAMS")), []) ∧
    GithubProvider.actionListCommitModifications "acme"
        (optsOfParams [⟨"repoName", [" "]⟩, ⟨"commitSha", ["abc"]⟩]) httpOkNull =
      (.error (.app "Repository name and commit SHA are required" 400
        (some "MISSING_REQUIRED_PARAMS")), []) ∧
    GithubProvider.actionListCommitModifications "acme" (optsOfParams []) httpOkNull =
      (.error (.app "Failed to fetch commit modifications" 500
        (some "FETCH_MODIFICATIONS_FAILED")), []) ∧
    BitbucketProvider.actionListRepoContents (some ["acme"]) (optsOfParams []) httpOkNull =
      (.error (.app "Repository name and commit are required" 400
        (some "MISSING_REQUIRED_PARAMS")), []) ∧
    BitbucketProvider.actionListCommitModifications (some ["acme"]) (optsOfParams [])
        httpOkNull =
      (.error (.app "Repository name and commit SHA are required" 400
        (some "MISSING_REQUIRED_PARAMS")), []) ∧
    BitbucketProvider.actionCommitsDiff (some ["acme"]) (optsOfParams []) httpOkNull =
      (.error (.app "Repository name, base commit and head commit are required" 400
        (some "MISSING_REQUIRED_PARAMS")), []) ∧
    BitbucketProvider.actionCommentPRs (some ["acme"]) (optsOfParams []) httpOkNull =
      (.error (.app "Repository name, PR number and comment text are required" 400
        (some "MISSING_REQUIRED_PARAMS")), []) ∧
    BitbucketProvider.actionListPipelines (some ["acme"]) (optsOfParams []) httpOkNull =
      (.error (.app "Repository name is required" 400 (some "MISSING_REQUIRED_PARAMS")), []) ∧
    BitbucketProvider.actionListDeployments (some ["acme"]) (optsOfParams []) httpOkNull =
      (.error (.app "Repository name is required" 400 (some "MISSING_REQUIRED_PARAMS")), []) ∧
    BitbucketProvider.actionGetRepo (some ["acme"]) (optsOfParams []) httpOkNull =
      (.error (.app "Failed to fetch repository" 500 (some "FETCH_REPO_FAILED")), []) ∧
    BitbucketProvider.actionListBranchCommits (some ["acme"]) (optsOfParams []) httpOkNull =
      (.error (.app "Failed to fetch commits" 500 (some "FETCH_COMMITS_FAILED")), []) ∧
    BitbucketProvider.actionGetCommitDetails (some ["acme"]) (optsOfParams []) httpOkNull =
      (.error (.app "Failed to fetch commit details" 500
        (some "FETCH_COMMIT_DETAILS_FAILED")), []) ∧
    BitbucketProvider.actionGetRepoFileContent (some ["acme"]) (optsOfParams []) httpOkNull =
      (.error (.app
        "In order to fetch file/directory contents from Bitbucket please fill all required fields."
        400 none), []) ∧
    BitbucketProvider.actionListRepoBranches (some ["acme"]) (optsOfParams []) httpOkNull =
      (.error (.app "Please required field (repository name)" 400 none), []) := by
  obtain ⟨a1, a2, a3, a4, a5, a6, a7, a8, a9, a10, -, a12, a13, a14, a15, a16, a17, a18,
    a19, a20, a21, a22, a23⟩ :=
    C1_amended "acme" (some ["acme"]) (optsOfParams []) httpOkNull "abc"
  obtain ⟨-, -, -, -, -, -, -, -, -, -, b11, -, -, -, -, -, -, -, -, -, -, -, -⟩ :=
    C1_amended "acme" (some ["acme"])
      (optsOfParams [⟨"repoName", [" "]⟩, ⟨"commitSha", ["abc"]⟩]) httpOkNull "abc"
  exact ⟨a1 rfl, a2 rfl, a3 (Or.inl rfl), a4 rfl, a5 rfl, a6 (Or.inl rfl), a7 (Or.inl rfl),
    a8 (Or.inl rfl), a9 rfl, a10 rfl, b11 (by decide) (by decide), a12 rfl,
    a13 (Or.inl rfl), a14 (Or.inl rfl), a15 (Or.inl rfl), a16 (Or.inl rfl), a17 rfl,
    a18 rfl, a19 rfl, a20 rfl, a21 (Or.inl rfl), a22 (Or.inl rfl), a23 rfl⟩

/-- C2 counterexample: an upstream 404 inside
`BitbucketProvider.actionListBranchCommits` (with `repoName` supplied) is
surfaced as `{statusCode: 500, errorCode: "FETCH_COMMITS_FAILED"}` — the 404 is
escalated to a 500, and the claimed uniform mapping policy fails for this
action. -/
theorem C2_counterexample :
    (BitbucketProvider.actionListBranchCommits (some ["acme"]) (optsOfParams fullParams)
        http404).1 =
      .error (.app "Failed to fetch commits" 500 (some "FETCH_COMMITS_FAILED")) ∧
    (JsError.app "Failed to fetch commits" 500 (some "FETCH_COMMITS_FAILED")).statusCodeOf ≠
      some 404 :=
  ⟨rfl, by decide⟩

/-- C2 amended: the mapping policy is uniform across the GitHub adapter only —
every `GithubProvider` action maps an upstream 404 to a 404 `AppError` with
`RESOURCE_NOT_FOUND` or `REPOSITORY_NOT_FOUND`, passes status-400 errors
through raw, and wraps everything else (a 401 included, which is NOT passed
through) as an action-specific 500.  On the Bitbucket adapter only
`actionGetCommitDetails` maps an upstream 404 to 404/`RESOURCE_NOT_FOUND`;
every other Bitbucket action surfaces an upstream 404 as its action-specific
500 error. -/
theorem C2_amended (owner : String) (bowner : Option (List String)) (opts : CallOptions)
    (rn cs : String) :
    ((GithubProvider.actionListRepos opts http404).1 =
      .error (.app "Resources not found" 404 (some "RESOURCE_NOT_FOUND"))) ∧
    (extractTrim (opts.configsParams.getD []) "repoName" ≠ "" →
      (GithubProvider.actionGetRepo owner opts http404).1 =
        .error (.app "Repository not found" 404 (some "REPOSITORY_NOT_FOUND"))) ∧
    (extractTrim (opts.configsParams.getD []) "repoName" ≠ "" →
      (GithubProvider.actionListRepoContents owner opts http404).1 =
        .error (.app "Repository path or reference not found" 404
          (some "RESOURCE_NOT_FOUND"))) ∧
    (extractTrim (opts.configsParams.getD []) "repoName" ≠ "" →
      extractTrim (opts.configsParams.getD []) "path" ≠ "" →
      (GithubProvider.actionGetRepoFileContent owner opts http404).1 =
        .error (.app "File not found or inaccessible" 404 (some "RESOURCE_NOT_FOUND"))) ∧
    (extractTrim (opts.configsParams.getD []) "repoName" ≠ "" →
      (GithubProvider.actionListBranches owner opts http404).1 =
        .error (.app "Repository not found" 404 (some "REPOSITORY_NOT_FOUND"))) ∧
    (extractTrim (opts.configsParams.getD []) "repoName" ≠ "" →
      (GithubProvider.actionListBranchCommits owner opts http404).1 =
        .error (.app "Branch or repository not found" 404 (some "RESOURCE_NOT_FOUND"))) ∧
    (extractTrimUnguarded (opts.configsParams.getD []) "repoName" = some rn → rn ≠ "" →
      extractTrimUnguarded (opts.configsParams.getD []) "commitSha" = some cs → cs ≠ "" →
      (GithubProvider.actionListCommitModifications owner opts http404).1 =
        .error (.app "Commit or repository not found" 404 (some "RESOURCE_NOT_FOUND"))) ∧
    (extractTrim (opts.configsParams.getD []) "repoName" ≠ "" →
      extractTrim (opts.configsParams.getD []) "commitSha" ≠ "" →
      (GithubProvider.actionGetCommitDetails owner opts http404).1 =
        .error (.app "Commit or repository not found" 404 (some "RESOURCE_NOT_FOUND"))) ∧
    (extractTrim (opts.configsParams.getD []) "repoName" ≠ "" →
      extractTrim (opts.configsParams.getD []) "baseCommit" ≠ "" →
      extractTrim (opts.configsParams.getD []) "headCommit" ≠ "" →
      (GithubProvider.actionCommitsDiff owner opts http404).1 =
        .error (.app "Repository or commits not found" 404 (some "RESOURCE_NOT_FOUND"))) ∧
    (extractTrim (opts.configsParams.getD []) "repoName" ≠ "" →
      extractTrim (opts.configsParams.getD []) "prNumber" ≠ "" →
      extractTrim (opts.configsParams.getD []) "comment" ≠ "" →
      (GithubProvider.actionCommentPrs owner opts http404).1 =
        .error (.app "Pull request or repository not found" 404 (some "RESOURCE_NOT_FOUND"))) ∧
    (extractTrim (opts.configsParams.getD []) "repoName" ≠ "" →
      (GithubProvider.actionListPipelines owner opts http404).1 =
        .error (.app "Repository not found" 404 (some "RESOURCE_NOT_FOUND"))) ∧
    (extractTrim (opts.configsParams.getD []) "repoName" ≠ "" →
      (GithubProvider.actionListDeployments owner opts http404).1 =
        .error (.app "Repository not found" 404 (some "RESOURCE_NOT_FOUND"))) ∧
    ((GithubProvider.actionListRepos opts (fun _ => .error (.http 400))).1 =
      .error (.http 400)) ∧
    ((GithubProvider.actionListRepos opts http401).1 =
      .error (.app "Failed to fetch repositories" 500 (some "FETCH_REPOS_FAILED"))) ∧
    ((BitbucketProvider.actionListBitbucketWorkspaces opts http404).1 =
      .error (.app "Failed to fetch workspaces" 500 (some "FETCH_WORKSPACES_FAILED"))) ∧
    ((BitbucketProvider.actionListRepos bowner opts http404).1 =
      .error (.app "Failed to fetch repositories" 500 (some "FETCH_REPOS_FAILED"))) ∧
    (extractTrim (opts.configsParams.getD []) "repoName" ≠ "" →
      (BitbucketProvider.actionGetRepo bowner opts http404).1 =
        .error (.app "Failed to fetch repository" 500 (some "FETCH_REPO_FAILED"))) ∧
    (extractTrim (opts.configsParams.getD []) "repoName" ≠ "" →
      extractTrim (opts.configsParams.getD []) "ref" ≠ "" →
      (BitbucketProvider.actionListRepoContents bowner opts http404).1 =
        .error (.app "Failed to fetch repository contents" 500
          (some "FETCH_CONTENTS_FAILED"))) ∧
    (extractTrim (opts.configsParams.getD []) "repoName" ≠ "" →
      extractTrim (opts.configsParams.getD []) "path" ≠ "" →
      (BitbucketProvider.actionGetRepoFileContent bowner opts http404).1 =
        .error (.app "Failed to fetch file content" 500 (some "FETCH_CONTENT_FAILED"))) ∧
    (extractTrim (opts.configsParams.getD []) "repoName" ≠ "" →
      (BitbucketProvider.actionListRepoBranches bowner opts http404).1 =
        .error (.app "Failed to fetch branches" 500 (some "FETCH_BRANCHES_FAILED"))) ∧
    (extractTrim (opts.configsParams.getD []) "repoName" ≠ "" →
      (BitbucketProvider.actionListBranchCommits bowner opts http404).1 =
        .error (.app "Failed to fetch commits" 500 (some "FETCH_COMMITS_FAILED"))) ∧
    (extractTrim (opts.configsParams.getD []) "repoName" ≠ "" →
      extractTrim (opts.configsParams.getD []) "commitSha" ≠ "" →
      (BitbucketProvider.actionListCommitModifications bowner opts http404).1 =
        .error (.app "Failed to fetch commit modifications" 500
          (some "FETCH_MODIFICATIONS_FAILED"))) ∧
    (extractTrim (opts.configsParams.getD []) "repoName" ≠ "" →
      extractTrim (opts.configsParams.getD []) "commitSha" ≠ "" →
      (BitbucketProvider.actionGetCommitDetails bowner opts http404).1 =
        .error (.app "Repository or commit not found" 404 (some "RESOURCE_NOT_FOUND"))) ∧
    (extractTrim (opts.configsParams.getD []) "repoName" ≠ "" →
      extractTrim (opts.configsParams.getD []) "baseCommit" ≠ "" →
      extractTrim (opts.configsParams.getD []) "headCommit" ≠ "" →
      (BitbucketProvider.actionCommitsDiff bowner opts http404).1 =
        .error (.app "Failed to compare commits" 500 (some "COMPARE_COMMITS_FAILED"))) ∧
    (extractTrim (opts.configsParams.getD []) "repoName" ≠ "" →
      extractTrim (opts.configsParams.getD []) "prNumber" ≠ "" →
      extractTrim (opts.configsParams.getD []) "comment" ≠ "" →
      (BitbucketProvider.actionCommentPRs bowner opts http404).1 =
        .error (.app "Failed to add comment to pull request" 500
          (some "COMMENT_PR_FAILED"))) ∧
    (extractTrim (opts.configsParams.getD []) "repoName" ≠ "" →
      (BitbucketProvider.actionListPipelines bowner opts http404).1 =
        .error (.app "Failed to fetch pipelines" 500 (some "FETCH_PIPELINES_FAILED"))) ∧
    (extractTrim (opts.configsParams.getD []) "repoName" ≠ "" →
      (BitbucketProvider.actionListDeployments bowner opts http404).1 =
        .error (.app "Failed to fetch deployments" 500 (some "FETCH_DEPLOYMENTS_FAILED"))) := by
  refine ⟨?_, ?_, ?_, ?_, ?_, ?_, ?_, ?_, ?_, ?_, ?_, ?_, ?_, ?_, ?_, ?_, ?_, ?_, ?_, ?_,
    ?_, ?_, ?_, ?_, ?_, ?_, ?_⟩
  · simp [GithubProvider.actionListRepos, tryWrap, httpStep, githubCatch, JsError.is404,
      JsError.is400, http404]
  · intro h
    simp [GithubProvider.actionGetRepo, tryWrap, httpStep, githubCatch, JsError.is404,
      JsError.is400, http404, h]
  · intro h
    simp [GithubProvider.actionListRepoContents, tryWrap, httpStep, githubCatch,
      JsError.is404, JsError.is400, http404, h]
  · intro h1 h2
    simp [GithubProvider.actionGetRepoFileContent, tryWrap, httpStep, githubCatch,
      JsError.is404, JsError.is400, http404, h1, h2]
  · intro h
    simp [GithubProvider.actionListBranches, tryWrap, httpStep, githubCatch, JsError.is404,
      JsError.is400, http404, h]
  · intro h
    simp [GithubProvider.actionListBranchCommits, tryWrap, httpStep, githubCatch,
      JsError.is404, JsError.is400, http404, h]
  · intro h1 h2 h3 h4
    simp [GithubProvider.actionListCommitModifications, tryWrap, httpStep, githubCatch,
      JsError.is404, JsError.is400, http404, h1, h2, h3, h4]
  · intro h1 h2
    simp [GithubProvider.actionGetCommitDetails, tryWrap, httpStep, githubCatch,
      JsError.is404, JsError.is400, http404, h1, h2]
  · intro h1 h2 h3
    simp [GithubProvider.actionCommitsDiff, tryWrap, httpStep, githubCatch, JsError.is404,
      JsError.is400, http404, h1, h2, h3]
  · intro h1 h2 h3
    simp [GithubProvider.actionCommentPrs, tryWrap, httpStep, githubCatch, JsError.is404,
      JsError.is400, http404, h1, h2, h3]
  · intro h
    simp [GithubProvider.actionListPipelines, tryWrap, httpStep, githubCatch, JsError.is404,
      JsError.is400, http404, h]
  · intro h
    simp [GithubProvider.actionListDeployments, tryWrap, httpStep, githubCatch,
      JsError.is404, JsError.is400, http404, h]
  · simp [GithubProvider.actionListRepos, tryWrap, httpStep, githubCatch, JsError.is404,
      JsError.is400]
  · simp [GithubProvider.actionListRepos, tryWrap, httpStep, githubCatch, JsError.is404,
      JsError.is400, http401]
  · simp [BitbucketProvider.actionListBitbucketWorkspaces, tryWrap, httpStep,
      bitbucket400Catch, JsError.is400, http404]
  · simp [BitbucketProvider.actionListRepos, tryWrap, httpStep, bitbucketAllCatch, http404]
  · intro h
    simp [BitbucketProvider.actionGetRepo, tryWrap, httpStep, bitbucketAllCatch, http404, h]
  · intro h1 h2
    simp [BitbucketProvider.actionListRepoContents, tryWrap, httpStep, bitbucket400Catch,
      JsError.is400, http404, h1, h2]
  · intro h1 h2
    by_cases h3 : extractTrim (opts.configsParams.getD []) "ref" = "" <;>
      simp [BitbucketProvider.actionGetRepoFileContent, tryWrap, httpStep, bitbucket400Catch,
        JsError.is400, http404, h1, h2, h3]
  · intro h
    simp [BitbucketProvider.actionListRepoBranches, tryWrap, httpStep, bitbucket400Catch,
      JsError.is400, http404, h]
  · intro h
    simp [BitbucketProvider.actionListBranchCommits, tryWrap, httpStep, bitbucketAllCatch,
      http404, h]
  · intro h1 h2
    simp [BitbucketProvider.actionListCommitModifications, tryWrap, httpStep,
      bitbucket400Catch, JsError.is400, http404, h1, h2]
  · intro h1 h2
    simp [BitbucketProvider.actionGetCommitDetails, tryWrap, httpStep, JsError.is404,
      http404, h1, h2]
  · intro h1 h2 h3
    simp [BitbucketProvider.actionCommitsDiff, tryWrap, httpStep, bitbucket400Catch,
      JsError.is400, http404, h1, h2, h3]
  · intro h1 h2 h3
    simp [BitbucketProvider.actionCommentPRs, tryWrap, httpStep, bitbucket400Catch,
      JsError.is400, http404, h1, h2, h3]
  · intro h
    simp [BitbucketProvider.actionListPipelines, tryWrap, httpStep, bitbucket400Catch,
      JsError.is400, http404, h]
  · intro h
    simp [BitbucketProvider.actionListDeployments, tryWrap, httpStep, bitbucket400Catch,
      JsError.is400, http404, h]

/-- Witness for C2 amended: the mapping at a concrete fully-parameterised
invocation against clients that answer 404, 400 and 401. -/
theorem C2_amended_witness :
    ((GithubProvider.actionListRepos (optsOfParams fullParams) http404).1 =
      .error (.app "Resources not found" 404 (some "RESOURCE_NOT_FOUND"))) ∧
    ((GithubProvider.actionGetRepo "acme" (optsOfParams fullParams) http404).1 =
      .error (.app "Repository not found" 404 (some "REPOSITORY_NOT_FOUND"))) ∧
    ((GithubProvider.actionListRepoContents "acme" (optsOfParams fullParams) http404).1 =
      .error (.app "Repository path or reference not found" 404
        (some "RESOURCE_NOT_FOUND"))) ∧
    ((GithubProvider.actionGetRepoFileContent "acme" (optsOfParams fullParams) http404).1 =
      .error (.app "File not found or inaccessible" 404 (some "RESOURCE_NOT_FOUND"))) ∧
    ((GithubProvider.actionListBranches "acme" (optsOfParams fullParams) http404).1 =
      .error (.app "Repository not found" 404 (some "REPOSITORY_NOT_FOUND"))) ∧
    ((GithubProvider.actionListBranchCommits "acme" (optsOfParams fullParams) http404).1 =
      .error (.app "Branch or repository not found" 404 (some "RESOURCE_NOT_FOUND"))) ∧
    ((GithubProvider.actionListCommitModifications "acme" (optsOfParams fullParams)
        http404).1 =
      .error (.app "Commit or repository not found" 404 (some "RESOURCE_NOT_FOUND"))) ∧
    ((GithubProvider.actionGetCommitDetails "acme" (optsOfParams fullParams) http404).1 =
      .error (.app "Commit or repository not found" 404 (some "RESOURCE_NOT_FOUND"))) ∧
    ((GithubProvider.actionCommitsDiff "acme" (optsOfParams fullParams) http404).1 =
      .error (.app "Repository or commits not found" 404 (some "RESOURCE_NOT_FOUND"))) ∧
    ((GithubProvider.actionCommentPrs "acme" (optsOfParams fullParams) http404).1 =
      .error (.app "Pull request or repository not found" 404 (some "RESOURCE_NOT_FOUND"))) ∧
    ((GithubProvider.actionListPipelines "acme" (optsOfParams fullParams) http404).1 =
      .error (.app "Repository not found" 404 (some "RESOURCE_NOT_FOUND"))) ∧
    ((GithubProvider.actionListDeployments "acme" (optsOfParams fullParams) http404).1 =
      .error (.app "Repository not found" 404 (some "RESOURCE_NOT_FOUND"))) ∧
    ((GithubProvider.actionListRepos (optsOfParams fullParams)
        (fun _ => .error (.http 400))).1 = .error (.http 400)) ∧
    ((GithubProvider.actionListRepos (optsOfParams fullParams) http401).1 =
      .error (.app "Failed to fetch repositories" 500 (some "FETCH_REPOS_FAILED"))) ∧
    ((BitbucketProvider.actionListBitbucketWorkspaces (optsOfParams fullParams) http404).1 =
      .error (.app "Failed to fetch workspaces" 500 (some "FETCH_WORKSPACES_FAILED"))) ∧
    ((BitbucketProvider.actionListRepos (some ["acme"]) (optsOfParams fullParams)
        http404).1 =
      .error (.app "Failed to fetch repositories" 500 (some "FETCH_REPOS_FAILED"))) ∧
    ((BitbucketProvider.actionGetRepo (some ["acme"]) (optsOfParams fullParams) http404).1 =
      .error (.app "Failed to fetch repository" 500 (some "FETCH_REPO_FAILED"))) ∧
    ((BitbucketProvider.actionListRepoContents (some ["acme"]) (optsOfParams fullParams)
        http404).1 =
      .error (.app "Failed to fetch repository contents" 500 (some "FETCH_CONTENTS_FAILED"))) ∧
    ((BitbucketProvider.actionGetRepoFileContent (some ["acme"]) (optsOfParams fullParams)
        http404).1 =
      .error (.app "Failed to fetch file content" 500 (some "FETCH_CONTENT_FAILED"))) ∧
    ((BitbucketProvider.actionListRepoBranches (some ["acme"]) (optsOfParams fullParams)
        http404).1 =
      .error (.app "Failed to fetch branches" 500 (some "FETCH_BRANCHES_FAILED"))) ∧
    ((BitbucketProvider.actionListBranchCommits (some ["acme"]) (optsOfParams fullParams)
        http404).1 =
      .error (.app "Failed to fetch commits" 500 (some "FETCH_COMMITS_FAILED"))) ∧
    ((BitbucketProvider.actionListCommitModifications (some ["acme"])
        (optsOfParams fullParams) http404).1 =
      .error (.app "Failed to fetch commit modifications" 500
        (some "FETCH_MODIFICATIONS_FAILED"))) ∧
    ((BitbucketProvider.actionGetCommitDetails (some ["acme"]) (optsOfParams fullParams)
        http404).1 =
      .error (.app "Repository or commit not found" 404 (some "RESOURCE_NOT_FOUND"))) ∧
    ((BitbucketProvider.actionCommitsDiff (some ["acme"]) (optsOfParams fullParams)
        http404).1 =
      .error (.app "Failed to compare commits" 500 (some "COMPARE_COMMITS_FAILED"))) ∧
    ((BitbucketProvider.actionCommentPRs (some ["acme"]) (optsOfParams fullParams)
        http404).1 =
      .error (.app "Failed to add comment to pull request" 500 (some "COMMENT_PR_FAILED"))) ∧
    ((BitbucketProvider.actionListPipelines (some ["acme"]) (optsOfParams fullParams)
        http404).1 =
      .error (.app "Failed to fetch pipelines" 500 (some "FETCH_PIPELINES_FAILED"))) ∧
    ((BitbucketProvider.actionListDeployments (some ["acme"]) (optsOfParams fullParams)
        http404).1 =
      .error (.app "Failed to fetch deployments" 500 (some "FETCH_DEPLOYMENTS_FAILED"))) := by
  obtain ⟨a1, a2, a3, a4, a5, a6, a7, a8, a9, a10, a11, a12, a13, a14, a15, a16, a17, a18,
    a19, a20, a21, a22, a23, a24, a25, a26, a27⟩ :=
    C2_amended "acme" (some ["acme"]) (optsOfParams fullParams) "r" "c"
  exact ⟨a1, a2 (by decide), a3 (by decide), a4 (by decide) (by decide), a5 (by decide),
    a6 (by decide), a7 (by decide) (by decide) (by decide) (by decide),
    a8 (by decide) (by decide), a9 (by decide) (by decide) (by decide),
    a10 (by decide) (by decide) (by decide), a11 (by decide), a12 (by decide), a13, a14,
    a15, a16, a17 (by decide), a18 (by decide) (by decide), a19 (by decide) (by decide),
    a20 (by decide), a21 (by decide), a22 (by decide) (by decide),
    a23 (by decide) (by decide), a24 (by decide) (by decide) (by decide),
    a25 (by decide) (by decide) (by decide), a26 (by decide), a27 (by decide)⟩

/-- A `/user` probe that always succeeds with `null` data. -/
def userOkNull : String → Except JsError Json := fun _ => .ok Json.null

/-- C3 counterexample: `GithubProvider.init()` with a non-empty token and owner
whose `/user` probe is rejected with a raw transport 401 re-throws that raw
error unchanged — neither a 401/`AUTH_FAILED` `NormalizedError` for missing
credentials nor the claimed generic 500 initialization error. -/
theorem C3_counterexample :
    (GithubProvider.init ⟨none, ""⟩ (some [⟨"token", ["tok"]⟩, ⟨"owner", ["acme"]⟩])
        (fun _ => .error (.http 401))).2 = .error (.http 401) ∧
    (JsError.http 401).isNormalizedError = false ∧
    initExtract (some [⟨"token", ["tok"]⟩, ⟨"owner", ["acme"]⟩]) "token" ≠ "" :=
  ⟨rfl, by decide, by decide⟩

/-- C3 amended: a missing or empty `token`/`owner` (GitHub) or a missing
`username`/`appPassword` entry (Bitbucket) makes `init()` fail with a 401
`AUTH_FAILED` `NormalizedError` — in particular `token=""`, `owner="acme"`
does.  For any other failure during client construction, GithubProvider
re-throws the error unchanged when its status is 401 (raw transport errors
included) and only otherwise wraps it as the two-argument 500
"Failed to initialize GitHub provider" error, while BitbucketProvider wraps
EVERY client-construction failure — whatever its status — as 401
`AUTH_FAILED`, never as a 500. -/
theorem C3_amended (st : GithubState) (bst : BitbucketState)
    (cfg bcfg : Option (List ParamEntry)) (uc : String → Except JsError Json)
    (buc : Except JsError Json) (e e' : JsError) (d : Json) (u p : List String) :
    (initExtract cfg "token" = "" →
      (GithubProvider.init st cfg uc).2 =
        .error (.app "GitHub token not found in configurations" 401 (some "AUTH_FAILED"))) ∧
    (initExtract cfg "token" ≠ "" → initExtract cfg "owner" = "" →
      (GithubProvider.init st cfg uc).2 =
        .error (.app "GitHub owner (account username) not found in configurations" 401
          (some "AUTH_FAILED"))) ∧
    (initExtract cfg "token" ≠ "" → initExtract cfg "owner" ≠ "" →
      uc (initExtract cfg "token") = .error e →
      (GithubProvider.init st cfg uc).2 =
        .error (if e.is401 then e
          else .app "Failed to initialize GitHub provider" 500 none)) ∧
    (initExtract cfg "token" ≠ "" → initExtract cfg "owner" ≠ "" →
      uc (initExtract cfg "token") = .ok d →
      (GithubProvider.init st cfg uc).2 = .ok ()) ∧
    (bitbucketCred bcfg "username" = none ∨ bitbucketCred bcfg "appPassword" = none →
      (BitbucketProvider.init bst bcfg buc).2 =
        .error (.app "Bitbucket credentials not found" 401 (some "AUTH_FAILED"))) ∧
    (bitbucketCred bcfg "username" = some u → bitbucketCred bcfg "appPassword" = some p →
      buc = .error e' →
      (BitbucketProvider.init bst bcfg buc).2 =
        .error (.app "Bitbucket authentication failed" 401 (some "AUTH_FAILED"))) := by
  refine ⟨?_, ?_, ?_, ?_, ?_, ?_⟩
  · intro h
    simp [GithubProvider.init, h]
  · intro h1 h2
    simp [GithubProvider.init, h1, h2]
  · intro h1 h2 h3
    by_cases h4 : e.is401 <;>
      simp [GithubProvider.init, GithubProvider.createClient, h1, h2, h3, h4]
  · intro h1 h2 h3
    simp [GithubProvider.init, GithubProvider.createClient, h1, h2, h3]
  · rintro (h | h)
    · simp [BitbucketProvider.init, h]
    · cases hu : bitbucketCred bcfg "username" <;> simp [BitbucketProvider.init, h, hu]
  · intro h1 h2 h3
    simp [BitbucketProvider.init, BitbucketProvider.createClient, JsError.is401, h1, h2, h3]

/-- Witness for C3 amended, including the spec scenario `token=""`,
`owner="acme"` yielding `{statusCode: 401, errorCode: "AUTH_FAILED"}`, and a
non-401 upstream failure during Bitbucket client construction yielding
`AUTH_FAILED` rather than a 500. -/
theorem C3_amended_witness :
    (GithubProvider.init ⟨none, ""⟩ (some [⟨"token", [""]⟩, ⟨"owner", ["acme"]⟩])
        userOkNull).2 =
      .error (.app "GitHub token not found in configurations" 401 (some "AUTH_FAILED")) ∧
    (GithubProvider.init ⟨none, ""⟩ (some [⟨"token", ["tok"]⟩]) userOkNull).2 =
      .error (.app "GitHub owner (account username) not found in configurations" 401
        (some "AUTH_FAILED")) ∧
    (GithubProvider.init ⟨none, ""⟩ (some [⟨"token", ["tok"]⟩, ⟨"owner", ["acme"]⟩])
        (fun _ => .error (.http 503))).2 =
      .error (if (JsError.http 503).is401 then .http 503
        else .app "Failed to initialize GitHub provider" 500 none) ∧
    (GithubProvider.init ⟨none, ""⟩ (some [⟨"token", ["tok"]⟩, ⟨"owner", ["acme"]⟩])
        userOkNull).2 = .ok () ∧
    (BitbucketProvider.init ⟨none, none⟩ (some []) (.ok Json.null)).2 =
      .error (.app "Bitbucket credentials not found" 401 (some "AUTH_FAILED")) ∧
    (BitbucketProvider.init ⟨none, none⟩
        (some [⟨"username", ["me"]⟩, ⟨"appPassword", ["pw"]⟩])
        (.error (.http 503))).2 =
      .error (.app "Bitbucket authentication failed" 401 (some "AUTH_FAILED")) := by
  obtain ⟨a1, -, -, -, -, -⟩ :=
    C3_amended ⟨none, ""⟩ ⟨none, none⟩ (some [⟨"token", [""]⟩, ⟨"owner", ["acme"]⟩])
      (some []) userOkNull (.ok Json.null) .bare .bare Json.null [] []
  obtain ⟨-, a2, -, -, a5, -⟩ :=
    C3_amended ⟨none, ""⟩ ⟨none, none⟩ (some [⟨"token", ["tok"]⟩]) (some []) userOkNull
      (.ok Json.null) .bare .bare Json.null [] []
  obtain ⟨-, -, a3, -, -, -⟩ :=
    C3_amended ⟨none, ""⟩ ⟨none, none⟩ (some [⟨"token", ["tok"]⟩, ⟨"owner", ["acme"]⟩])
      (some []) (fun _ => .error (.http 503)) (.ok Json.null) (.http 503) .bare Json.null
      [] []
  obtain ⟨-, -, -, a4, -, a6⟩ :=
    C3_amended ⟨none, ""⟩ ⟨none, none⟩ (some [⟨"token", ["tok"]⟩, ⟨"owner", ["acme"]⟩])
      (some [⟨"username", ["me"]⟩, ⟨"appPassword", ["pw"]⟩]) userOkNull
      (.error (.http 503)) .bare (.http 503) Json.null ["me"] ["pw"]
  exact ⟨a1 rfl, a2 (by decide) rfl, a3 (by decide) (by decide) rfl,
    a4 (by decide) (by decide) rfl, a5 (Or.inl rfl), a6 rfl rfl rfl⟩

/-- C4 counterexample: an upstream failure with `response.status === 400` is
re-thrown raw by `GithubProvider.actionListRepos` — a transport error crosses
the Provider Contract boundary unshaped even though it is not a
`NormalizedError`. -/
theorem C4_counterexample :
    (GithubProvider.actionListRepos (optsOfParams fullParams)
        (fun _ => .error (.http 400))).1 = .error (.http 400) ∧
    (JsError.http 400).isNormalizedError = false :=
  ⟨rfl, by decide⟩

/-- C4 amended: every error shaped by an adapter `catch` is a `NormalizedError`
EXCEPT that the GitHub-action and 400-pass-through Bitbucket catches re-throw
any error whose status is 400 unchanged — raw transport 400s included; and
`GithubProvider.init` additionally lets raw status-401 errors escape unshaped,
while `BitbucketProvider.init` only ever throws `NormalizedError`s. -/
theorem C4_amended (nf nfc fb fbc : String) (e : JsError) (st : GithubState)
    (cfg : Option (List ParamEntry)) (uc : String → Except JsError Json)
    (bst : BitbucketState) (bcfg : Option (List ParamEntry)) (buc : Except JsError Json) :
    (e.is400 = false → (githubCatch nf nfc fb fbc e).isNormalizedError = true) ∧
    (e.is400 = true → githubCatch nf nfc fb fbc e = e) ∧
    (e.is400 = false → (bitbucket400Catch fb fbc e).isNormalizedError = true) ∧
    (e.is400 = true → bitbucket400Catch fb fbc e = e) ∧
    ((bitbucketAllCatch fb fbc e).isNormalizedError = true) ∧
    (∀ err : JsError, (GithubProvider.init st cfg uc).2 = .error err →
      err.isNormalizedError = true ∨ err.is401 = true) ∧
    (∀ err : JsError, (BitbucketProvider.init bst bcfg buc).2 = .error err →
      err.isNormalizedError = true) := by
  refine ⟨?_, ?_, ?_, ?_, ?_, ?_, ?_⟩
  · intro h
    by_cases h4 : e.is404 <;> simp [githubCatch, JsError.isNormalizedError, h, h4]
  · intro h
    cases e with
    | app m s c =>
      have hs : s = 400 := by simpa [JsError.is400] using h
      subst hs
      simp [githubCatch, JsError.is404, JsError.is400]
    | http s =>
      have hs : s = 400 := by simpa [JsError.is400] using h
      subst hs
      simp [githubCatch, JsError.is404, JsError.is400]
    | bare => simp [JsError.is400] at h
  · intro h
    simp [bitbucket400Catch, JsError.isNormalizedError, h]
  · intro h
    simp [bitbucket400Catch, h]
  · simp [bitbucketAllCatch, JsError.isNormalizedError]
  · intro err h
    by_cases h1 : initExtract cfg "token" = ""
    · simp [GithubProvider.init, h1] at h
      subst h
      left; rfl
    · by_cases h2 : initExtract cfg "owner" = ""
      · simp [GithubProvider.init, h1, h2] at h
        subst h
        left; rfl
      · cases h3 : uc (initExtract cfg "token") with
        | ok d2 =>
          simp [GithubProvider.init, GithubProvider.createClient, h1, h2, h3] at h
        | error e2 =>
          by_cases h4 : e2.is401
          · simp [GithubProvider.init, GithubProvider.createClient, h1, h2, h3, h4] at h
            subst h
            right; exact h4
          · simp [GithubProvider.init, GithubProvider.createClient, h1, h2, h3, h4] at h
            subst h
            left; rfl
  · intro err h
    cases hu : bitbucketCred bcfg "username" with
    | none =>
      simp [BitbucketProvider.init, hu] at h
      subst h; rfl
    | some u2 =>
      cases hp : bitbucketCred bcfg "appPassword" with
      | none =>
        simp [BitbucketProvider.init, hu, hp] at h
        subst h; rfl
      | some p2 =>
        cases hb : buc with
        | ok d2 =>
          simp [BitbucketProvider.init, BitbucketProvider.createClient, hu, hp, hb] at h
        | error e2 =>
          simp [BitbucketProvider.init, BitbucketProvider.createClient, JsError.is401,
            hu, hp, hb] at h
          subst h; rfl

/-- Witness for C4 amended: the catches applied to a bare error and to a raw
transport 400, and the two `init` error shapes at concrete configurations. -/
theorem C4_amended_witness :
    (githubCatch "nf" "nfc" "fb" "fbc" .bare).isNormalizedError = true ∧
    githubCatch "nf" "nfc" "fb" "fbc" (.http 400) = .http 400 ∧
    (bitbucket400Catch "fb" "fbc" .bare).isNormalizedError = true ∧
    bitbucket400Catch "fb" "fbc" (.http 400) = .http 400 ∧
    (bitbucketAllCatch "fb" "fbc" .bare).isNormalizedError = true ∧
    ((JsError.app "GitHub token not found in configurations" 401
        (some "AUTH_FAILED")).isNormalizedError = true ∨
      (JsError.app "GitHub token not found in configurations" 401
        (some "AUTH_FAILED")).is401 = true) ∧
    (JsError.app "Bitbucket credentials not found" 401
      (some "AUTH_FAILED")).isNormalizedError = true := by
  obtain ⟨a1, -, a3, -, a5, a6, a7⟩ :=
    C4_amended "nf" "nfc" "fb" "fbc" .bare ⟨none, ""⟩ none userOkNull ⟨none, none⟩
      (some []) (.ok Json.null)
  obtain ⟨-, b2, -, b4, -, -, -⟩ :=
    C4_amended "nf" "nfc" "fb" "fbc" (.http 400) ⟨none, ""⟩ none userOkNull ⟨none, none⟩
      (some []) (.ok Json.null)
  exact ⟨a1 (by decide), b2 (by decide), a3 (by decide), b4 (by decide), a5,
    a6 (.app "GitHub token not found in configurations" 401 (some "AUTH_FAILED")) rfl,
    a7 (.app "Bitbucket credentials not found" 401 (some "AUTH_FAILED")) rfl⟩

/-- C5 counterexample: the 401/`AUTH_FAILED` `NormalizedError` raised by the
nested `init()` inside `actionUpdatePluginConfig` is NOT propagated unchanged —
the caller receives `{statusCode: 500, errorCode: "CONFIG_UPDATE_FAILED"}`
instead of the nested error. -/
theorem C5_counterexample :
    (GithubProvider.init ⟨none, ""⟩ none userOkNull).2 =
      .error (.app "GitHub token not found in configurations" 401 (some "AUTH_FAILED")) ∧
    (GithubProvider.actionUpdatePluginConfig ⟨none, ""⟩ Json.null (fun _ => .ok ()) none
        userOkNull).2.1 =
      .error (.app "Failed to update plugin configuration" 500
        (some "CONFIG_UPDATE_FAILED")) ∧
    JsError.app "Failed to update plugin configuration" 500 (some "CONFIG_UPDATE_FAILED") ≠
      JsError.app "GitHub token not found in configurations" 401 (some "AUTH_FAILED") :=
  ⟨rfl, rfl, by decide⟩

/-- C5 amended: a 400-status `NormalizedError` raised inside an action's try
block (such as `MISSING_REQUIRED_PARAMS`) is passed through unchanged by the
GitHub-action catch and by the 400-pass-through Bitbucket catch; but
`actionUpdatePluginConfig` re-wraps EVERY nested failure — `init()`'s
`AUTH_FAILED` included — as 500 `CONFIG_UPDATE_FAILED`, and
`BitbucketProvider.actionGetCommitDetails` re-wraps its own nested 404
`REPOSITORY_NOT_FOUND` error into a different 404 `RESOURCE_NOT_FOUND` one. -/
theorem C5_amended (nf nfc fb fbc m : String) (c : Option String) (st : GithubState)
    (cfgJson : Json) (save : Json → Except JsError Unit)
    (stored : Option (List ParamEntry)) (uc : String → Except JsError Json) (e : JsError) :
    (githubCatch nf nfc fb fbc (.app m 400 c) = .app m 400 c) ∧
    (bitbucket400Catch fb fbc (.app m 400 c) = .app m 400 c) ∧
    (save cfgJson = .ok () → (GithubProvider.init st stored uc).2 = .error e →
      (GithubProvider.actionUpdatePluginConfig st cfgJson save stored uc).2.1 =
        .error (.app "Failed to update plugin configuration" 500
          (some "CONFIG_UPDATE_FAILED"))) ∧
    ((BitbucketProvider.actionGetCommitDetails (some ["acme"]) (optsOfParams fullParams)
        (fun _ => .ok Json.null)).1 =
      .error (.app "Repository or commit not found" 404 (some "RESOURCE_NOT_FOUND")) ∧
      JsError.app "Repository or commit not found" 404 (some "RESOURCE_NOT_FOUND") ≠
        JsError.app "Repository not found or access denied" 404
          (some "REPOSITORY_NOT_FOUND")) := by
  refine ⟨?_, ?_, ?_, rfl, by decide⟩
  · simp [githubCatch, JsError.is404, JsError.is400]
  · simp [bitbucket400Catch, JsError.is400]
  · intro h1 h2
    rcases hI : GithubProvider.init st stored uc with ⟨st', r⟩
    rw [hI] at h2
    simp at h2
    subst h2
    simp [GithubProvider.actionUpdatePluginConfig, h1, hI]

/-- Witness for C5 amended at concrete inputs: a concrete 400
`MISSING_REQUIRED_PARAMS` error passes both catches unchanged, and a failing
nested `init` (empty store) is re-wrapped by `actionUpdatePluginConfig`. -/
theorem C5_amended_witness :
    githubCatch "nf" "nfc" "fb" "fbc"
        (.app "Repository name is required" 400 (some "MISSING_REQUIRED_PARAMS")) =
      .app "Repository name is required" 400 (some "MISSING_REQUIRED_PARAMS") ∧
    bitbucket400Catch "fb" "fbc"
        (.app "Repository name is required" 400 (some "MISSING_REQUIRED_PARAMS")) =
      .app "Repository name is required" 400 (some "MISSING_REQUIRED_PARAMS") ∧
    (GithubProvider.actionUpdatePluginConfig ⟨none, ""⟩ (Json.str "cfg") (fun _ => .ok ())
        none userOkNull).2.1 =
      .error (.app "Failed to update plugin configuration" 500
        (some "CONFIG_UPDATE_FAILED")) := by
  obtain ⟨a1, a2, a3, -⟩ :=
    C5_amended "nf" "nfc" "fb" "fbc" "Repository name is required"
      (some "MISSING_REQUIRED_PARAMS") ⟨none, ""⟩ (Json.str "cfg") (fun _ => .ok ()) none
      userOkNull (.app "GitHub token not found in configurations" 401 (some "AUTH_FAILED"))
  exact ⟨a1, a2, a3 rfl rfl⟩

/-- C6: `actionUpdatePluginConfig` always passes exactly `options.configs` to
`saveConfigs`, then re-runs `init()`; on success it returns
`{message: "Configuration updated successfully", configs: <the value passed>}`,
and any failure of saving or re-initialization is wrapped as 500
`CONFIG_UPDATE_FAILED`. -/
theorem C6_updatePluginConfig (st : GithubState) (cfgJson : Json)
    (save : Json → Except JsError Unit) (stored : Option (List ParamEntry))
    (uc : String → Except JsError Json) (e : JsError) :
    ((GithubProvider.actionUpdatePluginConfig st cfgJson save stored uc).2.2 =
      [cfgJson]) ∧
    (save cfgJson = .ok () → (GithubProvider.init st stored uc).2 = .ok () →
      (GithubProvider.actionUpdatePluginConfig st cfgJson save stored uc).2.1 =
        .ok (Json.obj [("message", Json.str "Configuration updated successfully"),
          ("configs", cfgJson)])) ∧
    (save cfgJson = .error e →
      (GithubProvider.actionUpdatePluginConfig st cfgJson save stored uc).2.1 =
        .error (.app "Failed to update plugin configuration" 500
          (some "CONFIG_UPDATE_FAILED"))) ∧
    (save cfgJson = .ok () → (GithubProvider.init st stored uc).2 = .error e →
      (GithubProvider.actionUpdatePluginConfig st cfgJson save stored uc).2.1 =
        .error (.app "Failed to update plugin configuration" 500
          (some "CONFIG_UPDATE_FAILED"))) := by
  refine ⟨?_, ?_, ?_, ?_⟩
  · cases hs : save cfgJson with
    | error e2 => simp [GithubProvider.actionUpdatePluginConfig, hs]
    | ok u =>
      rcases hI : GithubProvider.init st stored uc with ⟨st', r⟩
      cases r <;> simp [GithubProvider.actionUpdatePluginConfig, hs, hI]
  · intro h1 h2
    rcases hI : GithubProvider.init st stored uc with ⟨st', r⟩
    rw [hI] at h2
    simp at h2
    subst h2
    simp [GithubProvider.actionUpdatePluginConfig, h1, hI]
  · intro h1
    simp [GithubProvider.actionUpdatePluginConfig, h1]
  · intro h1 h2
    rcases hI : GithubProvider.init st stored uc with ⟨st', r⟩
    rw [hI] at h2
    simp at h2
    subst h2
    simp [GithubProvider.actionUpdatePluginConfig, h1, hI]

/-- Witness for C6 at concrete inputs: a store whose post-save config carries
valid credentials (success path), a failing store (save failure), and an empty
post-save config (re-initialization failure). -/
theorem C6_updatePluginConfig_witness :
    (GithubProvider.actionUpdatePluginConfig ⟨none, ""⟩ (Json.str "cfg") (fun _ => .ok ())
        (some [⟨"token", ["tok"]⟩, ⟨"owner", ["acme"]⟩]) userOkNull).2.2 =
      [Json.str "cfg"] ∧
    (GithubProvider.actionUpdatePluginConfig ⟨none, ""⟩ (Json.str "cfg") (fun _ => .ok ())
        (some [⟨"token", ["tok"]⟩, ⟨"owner", ["acme"]⟩]) userOkNull).2.1 =
      .ok (Json.obj [("message", Json.str "Configuration updated successfully"),
        ("configs", Json.str "cfg")]) ∧
    (GithubProvider.actionUpdatePluginConfig ⟨none, ""⟩ (Json.str "cfg")
        (fun _ => .error .bare) (some [⟨"token", ["tok"]⟩, ⟨"owner", ["acme"]⟩])
        userOkNull).2.1 =
      .error (.app "Failed to update plugin configuration" 500
        (some "CONFIG_UPDATE_FAILED")) ∧
    (GithubProvider.actionUpdatePluginConfig ⟨none, ""⟩ (Json.str "cfg") (fun _ => .ok ())
        none userOkNull).2.1 =
      .error (.app "Failed to update plugin configuration" 500
        (some "CONFIG_UPDATE_FAILED")) := by
  obtain ⟨a1, a2, -, -⟩ :=
    C6_updatePluginConfig ⟨none, ""⟩ (Json.str "cfg") (fun _ => .ok ())
      (some [⟨"token", ["tok"]⟩, ⟨"owner", ["acme"]⟩]) userOkNull .bare
  obtain ⟨-, -, b3, -⟩ :=
    C6_updatePluginConfig ⟨none, ""⟩ (Json.str "cfg") (fun _ => .error .bare)
      (some [⟨"token", ["tok"]⟩, ⟨"owner", ["acme"]⟩]) userOkNull .bare
  obtain ⟨-, -, -, c4⟩ :=
    C6_updatePluginConfig ⟨none, ""⟩ (Json.str "cfg") (fun _ => .ok ()) none userOkNull
      (.app "GitHub token not found in configurations" 401 (some "AUTH_FAILED"))
  exact ⟨a1, a2 rfl rfl, b3 rfl, c4 rfl rfl⟩

/-- A `/user` probe that rejects every token with a raw transport 401. -/
def userRejects : String → Except JsError Json := fun _ => .error (.http 401)

/-- C7 counterexample: after a failed `init()` (the `/user` probe rejected the
token), `this.client` is NOT null — it still holds the freshly constructed,
never-validated client, because `createClient` installs the client before the
validation call. -/
theorem C7_counterexample :
    (GithubProvider.init ⟨none, ""⟩ (some [⟨"token", ["badtok"]⟩, ⟨"owner", ["acme"]⟩])
        userRejects).2 = .error (.http 401) ∧
    ((GithubProvider.init ⟨none, ""⟩ (some [⟨"token", ["badtok"]⟩, ⟨"owner", ["acme"]⟩])
        userRejects).1).client = some ⟨"badtok"⟩ ∧
    (some (GithubClient.mk "badtok") ≠ (none : Option GithubClient)) ∧
    userRejects "badtok" = .error (.http 401) :=
  ⟨rfl, rfl, by decide, rfl⟩

/-- C7 amended: after a failed `init()` the client field is not guaranteed null
or valid.  When the credential checks fail, the client is left exactly as it
was before the call (possibly a stale client from an earlier `init`), and when
the credentials pass the presence checks the freshly built client stays
installed whether or not the `/user` validation succeeded. -/
theorem C7_amended (st : GithubState) (cfg : Option (List ParamEntry))
    (uc : String → Except JsError Json) (bst : BitbucketState)
    (bcfg : Option (List ParamEntry)) (buc : Except JsError Json) (u p : List String) :
    (initExtract cfg "token" = "" →
      ((GithubProvider.init st cfg uc).1).client = st.client) ∧
    (initExtract cfg "token" ≠ "" → initExtract cfg "owner" = "" →
      ((GithubProvider.init st cfg uc).1).client = st.client) ∧
    (initExtract cfg "token" ≠ "" → initExtract cfg "owner" ≠ "" →
      ((GithubProvider.init st cfg uc).1).client = some ⟨initExtract cfg "token"⟩) ∧
    (bitbucketCred bcfg "username" = none ∨ bitbucketCred bcfg "appPassword" = none →
      ((BitbucketProvider.init bst bcfg buc).1).client = bst.client) ∧
    (bitbucketCred bcfg "username" = some u → bitbucketCred bcfg "appPassword" = some p →
      ((BitbucketProvider.init bst bcfg buc).1).client = some ⟨u, p⟩) := by
  refine ⟨?_, ?_, ?_, ?_, ?_⟩
  · intro h
    simp [GithubProvider.init, h]
  · intro h1 h2
    simp [GithubProvider.init, h1, h2]
  · intro h1 h2
    cases h3 : uc (initExtract cfg "token") with
    | ok d2 => simp [GithubProvider.init, GithubProvider.createClient, h1, h2, h3]
    | error e2 =>
      by_cases h4 : e2.is401 <;>
        simp [GithubProvider.init, GithubProvider.createClient, h1, h2, h3, h4]
  · rintro (h | h)
    · simp [BitbucketProvider.init, h]
    · cases hu : bitbucketCred bcfg "username" <;> simp [BitbucketProvider.init, h, hu]
  · intro h1 h2
    cases hb : buc <;>
      simp [BitbucketProvider.init, BitbucketProvider.createClient, JsError.is401,
        h1, h2, hb]

/-- Witness for C7 amended: a provider holding an old client keeps it (stale)
when the new config lacks a token or owner; with credentials present but
rejected by `/user`, the new unvalidated client stays installed. -/
theorem C7_amended_witness :
    ((GithubProvider.init ⟨some ⟨"oldtok"⟩, "old"⟩ (some [⟨"token", [""]⟩]) userRejects).1).client =
      some ⟨"oldtok"⟩ ∧
    ((GithubProvider.init ⟨some ⟨"oldtok"⟩, "old"⟩ (some [⟨"token", ["t"]⟩])
        userRejects).1).client = some ⟨"oldtok"⟩ ∧
    ((GithubProvider.init ⟨some ⟨"oldtok"⟩, "old"⟩
        (some [⟨"token", ["tok"]⟩, ⟨"owner", ["acme"]⟩]) userRejects).1).client =
      some ⟨"tok"⟩ ∧
    ((BitbucketProvider.init ⟨some ⟨["u"], ["p"]⟩, none⟩ (some []) (.ok Json.null)).1).client =
      some ⟨["u"], ["p"]⟩ ∧
    ((BitbucketProvider.init ⟨none, none⟩
        (some [⟨"username", ["me"]⟩, ⟨"appPassword", ["pw"]⟩])
        (.error (.http 503))).1).client = some ⟨["me"], ["pw"]⟩ := by
  obtain ⟨a1, -, -, -, -⟩ :=
    C7_amended ⟨some ⟨"oldtok"⟩, "old"⟩ (some [⟨"token", [""]⟩]) userRejects ⟨none, none⟩
      (some []) (.ok Json.null) [] []
  obtain ⟨-, b2, -, b4, -⟩ :=
    C7_amended ⟨some ⟨"oldtok"⟩, "old"⟩ (some [⟨"token", ["t"]⟩]) userRejects
      ⟨some ⟨["u"], ["p"]⟩, none⟩ (some []) (.ok Json.null) [] []
  obtain ⟨-, -, c3, -, c5⟩ :=
    C7_amended ⟨some ⟨"oldtok"⟩, "old"⟩ (some [⟨"token", ["tok"]⟩, ⟨"owner", ["acme"]⟩])
      userRejects ⟨none, none⟩ (some [⟨"username", ["me"]⟩, ⟨"appPassword", ["pw"]⟩])
      (.error (.http 503)) ["me"] ["pw"]
  exact ⟨a1 rfl, b2 (by decide) rfl, c3 (by decide) (by decide), b4 (Or.inl rfl),
    c5 rfl rfl⟩

/-- C8 counterexample: the extraction performed by
`GithubProvider.actionListCommitModifications` is NOT total — with no matching
`repoName` entry it throws a `TypeError` (modelled as `none`), and the action
surfaces that throw as a 500, so extraction does not return the caller-supplied
default there. -/
theorem C8_counterexample :
    extractTrimUnguarded [] "repoName" = none ∧
    GithubProvider.actionListCommitModifications "acme" (optsOfParams []) httpOkNull =
      (.error (.app "Failed to fetch commit modifications" 500
        (some "FETCH_MODIFICATIONS_FAILED")), []) :=
  ⟨rfl, rfl⟩

/-- C8 amended: the optional-chained extractor used by every other call site is
total and agrees exactly with the spec's description (first value of the first
matching entry, trimmed, default `""` on no match or empty value sequence);
the unchained variant in `actionListCommitModifications` throws precisely when
no entry matches or the matching entry's value sequence is empty, and agrees
with the total extractor whenever it does not throw.  Required-ness is enforced
by the calling action in either case. -/
theorem C8_amended (params : List ParamEntry) (k s : String) :
    (extractTrim params k = specParamExtract params k "") ∧
    (extractTrimUnguarded params k = none ↔ extractRaw params k = none) ∧
    (extractTrimUnguarded params k = some s → s = extractTrim params k) := by
  refine ⟨?_, ?_, ?_⟩
  · cases hf : findParam params k with
    | none => simp [extractTrim, extractRaw, specParamExtract, hf]
    | some par =>
      cases hh : par.value.head? <;>
        simp [extractTrim, extractRaw, specParamExtract, hf, hh]
  · cases hf : findParam params k with
    | none => simp [extractTrimUnguarded, extractRaw, hf]
    | some par =>
      cases hh : par.value.head? <;> simp [extractTrimUnguarded, extractRaw, hf, hh]
  · intro h
    cases hf : findParam params k with
    | none => simp [extractTrimUnguarded, hf] at h
    | some par =>
      cases hh : par.value.head? with
      | none => simp [extractTrimUnguarded, hf, hh] at h
      | some v =>
        simp [extractTrimUnguarded, hf, hh] at h
        subst h
        simp [extractTrim, extractRaw, hf, hh]

/-- Witness for C8 amended at a concrete entry whose value needs trimming. -/
theorem C8_amended_witness :
    extractTrim [⟨"repoName", [" r "]⟩] "repoName" =
      specParamExtract [⟨"repoName", [" r "]⟩] "repoName" "" ∧
    "r" = extractTrim [⟨"repoName", [" r "]⟩] "repoName" := by
  obtain ⟨a, -, c⟩ := C8_amended [⟨"repoName", [" r "]⟩] "repoName" "r"
  exact ⟨a, c (by decide)⟩

/-- Two option bundles with identical `configs.params` but different top-level
`sort` fields. -/
def optsTopA : CallOptions :=
  { configsParams := some [], sort := some "a", page := none, perPage := none }

def optsTopB : CallOptions :=
  { configsParams := some [], sort := some "b", page := none, perPage := none }

/-- C9 counterexample: `BitbucketProvider.actionListRepos` reads `options.sort`
from the top level of the options value, so two calls with identical
`configs.params` issue different HTTP requests. -/
theorem C9_counterexample :
    optsTopA.configsParams = optsTopB.configsParams ∧
    ((BitbucketProvider.actionListRepos (some ["acme"]) optsTopA httpOkNull).2).map
        Request.query ≠
      ((BitbucketProvider.actionListRepos (some ["acme"]) optsTopB httpOkNull).2).map
        Request.query :=
  ⟨rfl, by decide⟩

/-- C9 amended: for every modelled action EXCEPT
`BitbucketProvider.actionListRepos`, the behaviour (result and issued requests)
depends on the options value only through `configs.params`; the surviving
`BitbucketProvider.actionListRepos` additionally reads top-level
`options.sort`, `options.page` and `options.perPage`. -/
theorem C9_amended (owner : String) (bowner : Option (List String)) (o1 o2 : CallOptions)
    (http : Request → Except JsError Json) (h : o1.configsParams = o2.configsParams) :
    GithubProvider.actionListRepos o1 http = GithubProvider.actionListRepos o2 http ∧
    GithubProvider.actionGetRepo owner o1 http = GithubProvider.actionGetRepo owner o2 http ∧
    GithubProvider.actionListRepoContents owner o1 http =
      GithubProvider.actionListRepoContents owner o2 http ∧
    GithubProvider.actionGetRepoFileContent owner o1 http =
      GithubProvider.actionGetRepoFileContent owner o2 http ∧
    GithubProvider.actionListBranches owner o1 http =
      GithubProvider.actionListBranches owner o2 http ∧
    GithubProvider.actionListBranchCommits owner o1 http =
      GithubProvider.actionListBranchCommits owner o2 http ∧
    GithubProvider.actionListCommitModifications owner o1 http =
      GithubProvider.actionListCommitModifications owner o2 http ∧
    GithubProvider.actionGetCommitDetails owner o1 http =
      GithubProvider.actionGetCommitDetails owner o2 http ∧
    GithubProvider.actionCommitsDiff owner o1 http =
      GithubProvider.actionCommitsDiff owner o2 http ∧
    GithubProvider.actionCommentPrs owner o1 http =
      GithubProvider.actionCommentPrs owner o2 http ∧
    GithubProvider.actionListPipelines owner o1 http =
      GithubProvider.actionListPipelines owner o2 http ∧
    GithubProvider.actionListDeployments owner o1 http =
      GithubProvider.actionListDeployments owner o2 http ∧
    BitbucketProvider.actionListBitbucketWorkspaces o1 http =
      BitbucketProvider.actionListBitbucketWorkspaces o2 http ∧
    BitbucketProvider.actionGetRepo bowner o1 http =
      BitbucketProvider.actionGetRepo bowner o2 http ∧
    BitbucketProvider.actionListRepoContents bowner o1 http =
      BitbucketProvider.actionListRepoContents bowner o2 http ∧
    BitbucketProvider.actionGetRepoFileContent bowner o1 http =
      BitbucketProvider.actionGetRepoFileContent bowner o2 http ∧
    BitbucketProvider.actionListRepoBranches bowner o1 http =
      BitbucketProvider.actionListRepoBranches bowner o2 http ∧
    BitbucketProvider.actionListBranchCommits bowner o1 http =
      BitbucketProvider.actionListBranchCommits bowner o2 http ∧
    BitbucketProvider.actionListCommitModifications bowner o1 http =
      BitbucketProvider.actionListCommitModifications bowner o2 http ∧
    BitbucketProvider.actionGetCommitDetails bowner o1 http =
      BitbucketProvider.actionGetCommitDetails bowner o2 http ∧
    BitbucketProvider.actionCommitsDiff bowner o1 http =
      BitbucketProvider.actionCommitsDiff bowner o2 http ∧
    BitbucketProvider.actionCommentPRs bowner o1 http =
      BitbucketProvider.actionCommentPRs bowner o2 http ∧
    BitbucketProvider.actionListPipelines bowner o1 http =
      BitbucketProvider.actionListPipelines bowner o2 http ∧
    BitbucketProvider.actionListDeployments bowner o1 http =
      BitbucketProvider.actionListDeployments bowner o2 http := by
  refine ⟨?_, ?_, ?_, ?_, ?_, ?_, ?_, ?_, ?_, ?_, ?_, ?_, ?_, ?_, ?_, ?_, ?_, ?_, ?_, ?_,
    ?_, ?_, ?_, ?_⟩
  · simp only [GithubProvider.actionListRepos, h]
  · simp only [GithubProvider.actionGetRepo, h]
  · simp only [GithubProvider.actionListRepoContents, h]
  · simp only [GithubProvider.actionGetRepoFileContent, h]
  · simp only [GithubProvider.actionListBranches, h]
  · simp only [GithubProvider.actionListBranchCommits, h]
  · simp only [GithubProvider.actionListCommitModifications, h]
  · simp only [GithubProvider.actionGetCommitDetails, h]
  · simp only [GithubProvider.actionCommitsDiff, h]
  · simp only [GithubProvider.actionCommentPrs, h]
  · simp only [GithubProvider.actionListPipelines, h]
  · simp only [GithubProvider.actionListDeployments, h]
  · simp only [BitbucketProvider.actionListBitbucketWorkspaces, h]
  · simp only [BitbucketProvider.actionGetRepo, h]
  · simp only [BitbucketProvider.actionListRepoContents, h]
  · simp only [BitbucketProvider.actionGetRepoFileContent, h]
  · simp only [BitbucketProvider.actionListRepoBranches, h]
  · simp only [BitbucketProvider.actionListBranchCommits, h]
  · simp only [BitbucketProvider.actionListCommitModifications, h]
  · simp only [BitbucketProvider.actionGetCommitDetails, h]
  · simp only [BitbucketProvider.actionCommitsDiff, h]
  · simp only [BitbucketProvider.actionCommentPRs, h]
  · simp only [BitbucketProvider.actionListPipelines, h]
  · simp only [BitbucketProvider.actionListDeployments, h]

/-- Witness for C9 amended: two concrete option bundles that differ in the
top-level `sort` field but share `configs.params` produce identical behaviour
on every conforming action. -/
theorem C9_amended_witness :
    GithubProvider.actionListRepos optsTopA httpOkNull =
      GithubProvider.actionListRepos optsTopB httpOkNull ∧
    GithubProvider.actionGetRepo "acme" optsTopA httpOkNull =
      GithubProvider.actionGetRepo "acme" optsTopB httpOkNull ∧
    GithubProvider.actionListRepoContents "acme" optsTopA httpOkNull =
      GithubProvider.actionListRepoContents "acme" optsTopB httpOkNull ∧
    GithubProvider.actionGetRepoFileContent "acme" optsTopA httpOkNull =
      GithubProvider.actionGetRepoFileContent "acme" optsTopB httpOkNull ∧
    GithubProvider.actionListBranches "acme" optsTopA httpOkNull =
      GithubProvider.actionListBranches "acme" optsTopB httpOkNull ∧
    GithubProvider.actionListBranchCommits "acme" optsTopA httpOkNull =
      GithubProvider.actionListBranchCommits "acme" optsTopB httpOkNull ∧
    GithubProvider.actionListCommitModifications "acme" optsTopA httpOkNull =
      GithubProvider.actionListCommitModifications "acme" optsTopB httpOkNull ∧
    GithubProvider.actionGetCommitDetails "acme" optsTopA httpOkNull =
      GithubProvider.actionGetCommitDetails "acme" optsTopB httpOkNull ∧
    GithubProvider.actionCommitsDiff "acme" optsTopA httpOkNull =
      GithubProvider.actionCommitsDiff "acme" optsTopB httpOkNull ∧
    GithubProvider.actionCommentPrs "acme" optsTopA httpOkNull =
      GithubProvider.actionCommentPrs "acme" optsTopB httpOkNull ∧
    GithubProvider.actionListPipelines "acme" optsTopA httpOkNull =
      GithubProvider.actionListPipelines "acme" optsTopB httpOkNull ∧
    GithubProvider.actionListDeployments "acme" optsTopA httpOkNull =
      GithubProvider.actionListDeployments "acme" optsTopB httpOkNull ∧
    BitbucketProvider.actionListBitbucketWorkspaces optsTopA httpOkNull =
      BitbucketProvider.actionListBitbucketWorkspaces optsTopB httpOkNull ∧
    BitbucketProvider.actionGetRepo (some ["acme"]) optsTopA httpOkNull =
      BitbucketProvider.actionGetRepo (some ["acme"]) optsTopB httpOkNull ∧
    BitbucketProvider.actionListRepoContents (some ["acme"]) optsTopA httpOkNull =
      BitbucketProvider.actionListRepoContents (some ["acme"]) optsTopB httpOkNull ∧
    BitbucketProvider.actionGetRepoFileContent (some ["acme"]) optsTopA httpOkNull =
      BitbucketProvider.actionGetRepoFileContent (some ["acme"]) optsTopB httpOkNull ∧
    BitbucketProvider.actionListRepoBranches (some ["acme"]) optsTopA httpOkNull =
      BitbucketProvider.actionListRepoBranches (some ["acme"]) optsTopB httpOkNull ∧
    BitbucketProvider.actionListBranchCommits (some ["acme"]) optsTopA httpOkNull =
      BitbucketProvider.actionListBranchCommits (some ["acme"]) optsTopB httpOkNull ∧
    BitbucketProvider.actionListCommitModifications (some ["acme"]) optsTopA httpOkNull =
      BitbucketProvider.actionListCommitModifications (some ["acme"]) optsTopB httpOkNull ∧
    BitbucketProvider.actionGetCommitDetails (some ["acme"]) optsTopA httpOkNull =
      BitbucketProvider.actionGetCommitDetails (some ["acme"]) optsTopB httpOkNull ∧
    BitbucketProvider.actionCommitsDiff (some ["acme"]) optsTopA httpOkNull =
      BitbucketProvider.actionCommitsDiff (some ["acme"]) optsTopB httpOkNull ∧
    BitbucketProvider.actionCommentPRs (some ["acme"]) optsTopA httpOkNull =
      BitbucketProvider.actionCommentPRs (some ["acme"]) optsTopB httpOkNull ∧
    BitbucketProvider.actionListPipelines (some ["acme"]) optsTopA httpOkNull =
      BitbucketProvider.actionListPipelines (some ["acme"]) optsTopB httpOkNull ∧
    BitbucketProvider.actionListDeployments (some ["acme"]) optsTopA httpOkNull =
      BitbucketProvider.actionListDeployments (some ["acme"]) optsTopB httpOkNull :=
  C9_amended "acme" (some ["acme"]) optsTopA optsTopB httpOkNull rfl

/-- The request recorded by a single-call try body does not depend on the
catch shaping. -/
theorem tryWrap_httpStep_requests (f : JsError → JsError)
    (http : Request → Except JsError Json) (r : Request) :
    (tryWrap f (httpStep http r)).2 = [r] := by
  cases h : http r <;> simp [tryWrap, httpStep, h]

/-- A single-call try body succeeds with `d` exactly when the underlying HTTP
call does, independently of the catch shaping. -/
theorem tryWrap_httpStep_ok_iff (f : JsError → JsError)
    (http : Request → Except JsError Json) (r : Request) (d : Json) :
    (tryWrap f (httpStep http r)).1 = .ok d ↔ http r = .ok d := by
  cases h : http r <;> simp [tryWrap, httpStep, h]

/-- C10 counterexample: on the shared domain (`repoName` and `path` both
non-empty) an upstream 503 makes the two actions fail with DIFFERENT errors —
`FETCH_CONTENTS_FAILED` versus `FETCH_CONTENT_FAILED` — a divergence that is
neither the `path` requirement nor a 404 message difference, refuting the
"differ only in ..." clause. -/
theorem C10_counterexample :
    (GithubProvider.actionListRepoContents "acme" (optsOfParams fullParams)
        (fun _ => .error (.http 503))).1 =
      .error (.app "Failed to fetch repository contents" 500
        (some "FETCH_CONTENTS_FAILED")) ∧
    (GithubProvider.actionGetRepoFileContent "acme" (optsOfParams fullParams)
        (fun _ => .error (.http 503))).1 =
      .error (.app "Failed to fetch file content" 500 (some "FETCH_CONTENT_FAILED")) ∧
    (some "FETCH_CONTENTS_FAILED" ≠ some "FETCH_CONTENT_FAILED") ∧
    ((JsError.app "Failed to fetch repository contents" 500
      (some "FETCH_CONTENTS_FAILED")).statusCodeOf ≠ some 404) :=
  ⟨rfl, rfl, by decide, by decide⟩

/-- C10 amended: on their shared domain (`repoName` and `path` both extract
non-empty) `actionListRepoContents` and `actionGetRepoFileContent` issue the
identical single GET request — same URL, same `ref` query parameter — and
succeed with identical upstream data; they differ in the message of their 404
errors (both `RESOURCE_NOT_FOUND`) and ADDITIONALLY in the message and
errorCode of their 500 fallback errors. -/
theorem C10_amended (owner : String) (opts : CallOptions)
    (http : Request → Except JsError Json)
    (h1 : extractTrim (opts.configsParams.getD []) "repoName" ≠ "")
    (h2 : extractTrim (opts.configsParams.getD []) "path" ≠ "") :
    (GithubProvider.actionListRepoContents owner opts http).2 =
      (GithubProvider.actionGetRepoFileContent owner opts http).2 ∧
    (∀ d : Json, (GithubProvider.actionListRepoContents owner opts http).1 = .ok d ↔
      (GithubProvider.actionGetRepoFileContent owner opts http).1 = .ok d) ∧
    ((GithubProvider.actionListRepoContents owner opts http404).1 =
      .error (.app "Repository path or reference not found" 404
        (some "RESOURCE_NOT_FOUND"))) ∧
    ((GithubProvider.actionGetRepoFileContent owner opts http404).1 =
      .error (.app "File not found or inaccessible" 404 (some "RESOURCE_NOT_FOUND"))) := by
  refine ⟨?_, ?_, ?_, ?_⟩
  · simp [GithubProvider.actionListRepoContents, GithubProvider.actionGetRepoFileContent,
      h1, h2, tryWrap_httpStep_requests]
  · intro d
    simp [GithubProvider.actionListRepoContents, GithubProvider.actionGetRepoFileContent,
      h1, h2, tryWrap_httpStep_ok_iff]
  · simp [GithubProvider.actionListRepoContents, tryWrap, httpStep, githubCatch,
      JsError.is404, JsError.is400, http404, h1, h2]
  · simp [GithubProvider.actionGetRepoFileContent, tryWrap, httpStep, githubCatch,
      JsError.is404, JsError.is400, http404, h1, h2]

/-- Witness for C10 amended at a concrete fully-parameterised invocation. -/
theorem C10_amended_witness :
    (GithubProvider.actionListRepoContents "acme" (optsOfParams fullParams) httpOkNull).2 =
      (GithubProvider.actionGetRepoFileContent "acme" (optsOfParams fullParams)
        httpOkNull).2 ∧
    ((GithubProvider.actionListRepoContents "acme" (optsOfParams fullParams)
        httpOkNull).1 = .ok Json.null ↔
      (GithubProvider.actionGetRepoFileContent "acme" (optsOfParams fullParams)
        httpOkNull).1 = .ok Json.null) ∧
    ((GithubProvider.actionListRepoContents "acme" (optsOfParams fullParams) http404).1 =
      .error (.app "Repository path or reference not found" 404
        (some "RESOURCE_NOT_FOUND"))) ∧
    ((GithubProvider.actionGetRepoFileContent "acme" (optsOfParams fullParams) http404).1 =
      .error (.app "File not found or inaccessible" 404 (some "RESOURCE_NOT_FOUND"))) := by
  obtain ⟨a1, a2, a3, a4⟩ :=
    C10_amended "acme" (optsOfParams fullParams) httpOkNull (by decide) (by decide)
  exact ⟨a1, a2 Json.null, a3, a4⟩
